import Mathlib

/-!
Verification of the Sentinel network behavior analyzer
(`backend/app/services/network_behavior_analyzer.py`).

The Python module is shallowly embedded: each method of
`NetworkBehaviorAnalyzer` becomes a Lean function of the same name (the
leading underscore dropped), dictionaries keyed by insertion order become
association lists, Python numbers become `ℚ` (or `ℝ` where a square root
is taken), and code that can raise becomes `Except String`.  External
library behavior the module relies on (`datetime.fromisoformat`, the
`StandardScaler`/`DBSCAN` pair from scikit-learn) is modelled explicitly;
each such model carries a doc comment describing exactly which behavior
it reproduces.
-/

namespace Sentinel

/-- One transaction edge as the analyzer receives it: a Python dict with
required `from_address`/`to_address` keys and optional `value` /
`timestamp` keys (`none` models an absent key or a `None` value). -/
structure Tx where
  from_address : String
  to_address : String
  value : Option ℚ
  timestamp : Option String
deriving DecidableEq, Repr

/-- Models `tx.get('value', 0)`. -/
def Tx.getValue (tx : Tx) : ℚ := tx.value.getD 0

/-- Models `tx['value']`, which raises `KeyError` when the key is absent. -/
def Tx.reqValue (tx : Tx) : Except String ℚ :=
  match tx.value with
  | some v => .ok v
  | none => .error "KeyError: value"

/-- Models `tx.get('timestamp')` followed by Python truthiness (`if timestamp:`):
`None` and the empty string are falsy. -/
def Tx.truthyTimestamp (tx : Tx) : Option String :=
  match tx.timestamp with
  | some s => if s = "" then none else some s
  | none => none

/- ## Model of `datetime.fromisoformat` and timedelta arithmetic -/

/-- Leap-year test of the proleptic Gregorian calendar (as Python's
`datetime` uses). -/
def isLeap (y : Int) : Bool := y % 4 == 0 && (y % 100 != 0 || y % 400 == 0)

/-- Number of days in month `m` of year `y`. -/
def lastDayOfMonth (y : Int) (m : ℕ) : ℕ :=
  if m = 2 then (if isLeap y then 29 else 28)
  else if m = 4 ∨ m = 6 ∨ m = 9 ∨ m = 11 then 30
  else 31

/-- Days from 1970-01-01 to year `y`, month `m`, day `d` (civil-calendar
counting, the standard era-based algorithm). -/
def daysFromCivil (y : Int) (m d : ℕ) : Int :=
  let y2 : Int := if m ≤ 2 then y - 1 else y
  let era : Int := (if 0 ≤ y2 then y2 else y2 - 399) / 400
  let yoe : Int := y2 - era * 400
  let mp : Int := ((m : Int) + 9) % 12
  let doy : Int := (153 * mp + 2) / 5 + (d : Int) - 1
  let doe : Int := yoe * 365 + yoe / 4 - yoe / 100 + doy
  era * 146097 + doe - 719468

/-- A parsed Python `datetime`: `aware` records whether it carries a UTC
offset (Python refuses to compare or subtract aware and naive datetimes),
`secs` is its instant in seconds since the epoch. -/
structure PyDatetime where
  aware : Bool
  secs : Int
deriving DecidableEq, Repr

/-- Numeric value of a decimal digit character. -/
def digitVal (c : Char) : Option ℕ :=
  if c.isDigit then some (c.toNat - 48) else none

/-- Two-digit decimal number. -/
def parse2 (a b : Char) : Option ℕ := do
  let x ← digitVal a
  let y ← digitVal b
  pure (10 * x + y)

/-- Four-digit decimal number. -/
def parse4 (a b c d : Char) : Option ℕ := do
  let x ← parse2 a b
  let y ← parse2 c d
  pure (100 * x + y)

/-- Parses the ten characters `YYYY-MM-DD` with calendar validation. -/
def parseDate (cs : List Char) : Option (Int × ℕ × ℕ) :=
  match cs with
  | [a, b, c, d, s1, e, f, s2, g, h] =>
    if s1 = '-' ∧ s2 = '-' then do
      let y ← parse4 a b c d
      let m ← parse2 e f
      let dd ← parse2 g h
      if 1 ≤ m ∧ m ≤ 12 ∧ 1 ≤ dd ∧ dd ≤ lastDayOfMonth (y : Int) m then
        some ((y : Int), m, dd)
      else none
    else none
  | _ => none

/-- Parses the eight characters `HH:MM:SS` into seconds within the day. -/
def parseTime (cs : List Char) : Option ℕ :=
  match cs with
  | [h1, h2, c1, m1, m2, c2, s1, s2] =>
    if c1 = ':' ∧ c2 = ':' then do
      let h ← parse2 h1 h2
      let m ← parse2 m1 m2
      let s ← parse2 s1 s2
      if h ≤ 23 ∧ m ≤ 59 ∧ s ≤ 59 then some (3600 * h + 60 * m + s) else none
    else none
  | _ => none

/-- Models Python's `datetime.fromisoformat` restricted to the forms the
analyzer actually feeds it: naive `YYYY-MM-DD` and `YYYY-MM-DD?HH:MM:SS`
(CPython accepts any single character as the date/time separator), and the
aware `...+00:00` form those strings take after the analyzer's
`replace('Z', '+00:00')`.  Strings of any other shape, including
fractional seconds and non-UTC offsets, are treated as unparsable. -/
def fromisoformat (s : String) : Option PyDatetime :=
  let cs := s.data
  if cs.length = 10 then
    (parseDate cs).map (fun p => ⟨false, 86400 * daysFromCivil p.1 p.2.1 p.2.2⟩)
  else if cs.length = 19 then do
    let d ← parseDate (cs.take 10)
    let t ← parseTime (cs.drop 11)
    pure ⟨false, 86400 * daysFromCivil d.1 d.2.1 d.2.2 + (t : Int)⟩
  else if cs.length = 25 ∧ cs.drop 19 = "+00:00".data then do
    let d ← parseDate (cs.take 10)
    let t ← parseTime ((cs.take 19).drop 11)
    pure ⟨true, 86400 * daysFromCivil d.1 d.2.1 d.2.2 + (t : Int)⟩
  else none

/-- Models `ts.replace('Z', '+00:00')` (every occurrence replaced). -/
def replaceZ (s : String) : String :=
  String.mk (s.data.flatMap (fun c => if c = 'Z' then "+00:00".data else [c]))

/-- Largest element of a list of integers (0 for the empty list; only used
on nonempty lists, mirroring Python's `max`). -/
def listMaxInt : List Int → Int
  | [] => 0
  | x :: xs => xs.foldl max x

/-- Smallest element of a list of integers (0 for the empty list). -/
def listMinInt : List Int → Int
  | [] => 0
  | x :: xs => xs.foldl min x

/- ## `_extract_network_features` -/

/-- The per-address accumulator of `_extract_network_features`: the value
type of its `defaultdict`.  `unique_counterparties` models a Python `set`
as its insertion-ordered list of distinct elements; `timestamps` collects
the truthy timestamp strings in arrival order. -/
structure AddressStats where
  in_degree : ℕ
  out_degree : ℕ
  in_volume : ℚ
  out_volume : ℚ
  tx_count : ℕ
  unique_counterparties : List String
  timestamps : List String
deriving DecidableEq, Repr

/-- The `defaultdict` default: all-zero statistics. -/
def AddressStats.init : AddressStats := ⟨0, 0, 0, 0, 0, [], []⟩

/-- Set insertion for the `unique_counterparties` Python set. -/
def setAdd (l : List String) (x : String) : List String :=
  if x ∈ l then l else l ++ [x]

/-- Updates the entry of `addr` in an insertion-ordered association list,
creating it from the default when absent (Python `defaultdict` indexing). -/
def updateStats (m : List (String × AddressStats)) (addr : String)
    (f : AddressStats → AddressStats) : List (String × AddressStats) :=
  match m with
  | [] => [(addr, f AddressStats.init)]
  | (a, s) :: rest =>
    if a = addr then (a, f s) :: rest else (a, s) :: updateStats rest addr f

/-- One iteration of the statistics loop of `_extract_network_features`:
the source-side updates, then the destination-side updates. -/
def recordTx (m : List (String × AddressStats)) (tx : Tx) :
    List (String × AddressStats) :=
  updateStats
    (updateStats m tx.from_address (fun s =>
      { s with
        out_degree := s.out_degree + 1
        out_volume := s.out_volume + tx.getValue
        tx_count := s.tx_count + 1
        unique_counterparties := setAdd s.unique_counterparties tx.to_address
        timestamps :=
          match tx.truthyTimestamp with
          | some ts => s.timestamps ++ [ts]
          | none => s.timestamps }))
    tx.to_address (fun s =>
    { s with
      in_degree := s.in_degree + 1
      in_volume := s.in_volume + tx.getValue
      tx_count := s.tx_count + 1
      unique_counterparties := setAdd s.unique_counterparties tx.from_address
      timestamps :=
        match tx.truthyTimestamp with
        | some ts => s.timestamps ++ [ts]
        | none => s.timestamps })

/-- The statistics-accumulation loop of `_extract_network_features`. -/
def buildStats (network_data : List Tx) : List (String × AddressStats) :=
  network_data.foldl recordTx []

/-- The temporal feature of `_extract_network_features`: the whole list
comprehension parsing an address's timestamps runs inside one
`try`/`except`, so a single unparsable timestamp (or a mixed
aware/naive comparison in `max`/`min`) sends the feature to 0 even when
other timestamps parse.  `(max(dates) - min(dates)).days` is floor
division of the second difference by 86400. -/
def activitySpanFeature (timestamps : List String) : ℚ :=
  if timestamps ≠ [] then
    match (timestamps.filter (· ≠ "")).mapM (fun ts => fromisoformat (replaceZ ts)) with
    | none => 0
    | some dates =>
      if dates ≠ [] then
        if dates.all (·.aware) ∨ dates.all (fun d => !d.aware) then
          (((listMaxInt (dates.map (·.secs))) - (listMinInt (dates.map (·.secs)))).fdiv 86400 : ℚ)
        else 0
      else 0
  else 0

/-- The `balance_ratio` feature: `in_volume / max(1, total_volume)`. -/
def balanceRatio (s : AddressStats) : ℚ :=
  s.in_volume / max 1 (s.in_volume + s.out_volume)

/-- The eight-entry feature vector built for each address (volumes are
converted to ETH by dividing by `1e18`). -/
def featureVector (s : AddressStats) : List ℚ :=
  [(s.in_degree : ℚ), (s.out_degree : ℚ),
   s.in_volume / 10 ^ 18, s.out_volume / 10 ^ 18,
   (s.tx_count : ℚ), (s.unique_counterparties.length : ℚ),
   activitySpanFeature s.timestamps, balanceRatio s]

/-- `_extract_network_features`: per-address statistics folded over the
edge list, then mapped to feature vectors in dict insertion order. -/
def extract_network_features (network_data : List Tx) : List (String × List ℚ) :=
  (buildStats network_data).map (fun p => (p.1, featureVector p.2))

/- ## Degree-sum bookkeeping for the feature extractor -/

/-- Total `out_degree` over all entries of a statistics map. -/
def sumOut (m : List (String × AddressStats)) : ℕ :=
  (m.map (fun p => p.2.out_degree)).sum

/-- Total `in_degree` over all entries of a statistics map. -/
def sumIn (m : List (String × AddressStats)) : ℕ :=
  (m.map (fun p => p.2.in_degree)).sum

lemma sumOut_updateStats (m : List (String × AddressStats)) (addr : String)
    (f : AddressStats → AddressStats) (k : ℕ)
    (hf : ∀ s, (f s).out_degree = s.out_degree + k) :
    sumOut (updateStats m addr f) = sumOut m + k := by
  induction m with
  | nil => simp [updateStats, sumOut, hf, AddressStats.init]
  | cons p rest ih =>
    obtain ⟨a, s⟩ := p
    by_cases h : a = addr
    · simp only [updateStats, if_pos h, sumOut, List.map_cons, List.sum_cons, hf]
      omega
    · simp only [updateStats, if_neg h]
      simp only [sumOut, List.map_cons, List.sum_cons] at ih ⊢
      omega

lemma sumIn_updateStats (m : List (String × AddressStats)) (addr : String)
    (f : AddressStats → AddressStats) (k : ℕ)
    (hf : ∀ s, (f s).in_degree = s.in_degree + k) :
    sumIn (updateStats m addr f) = sumIn m + k := by
  induction m with
  | nil => simp [updateStats, sumIn, hf, AddressStats.init]
  | cons p rest ih =>
    obtain ⟨a, s⟩ := p
    by_cases h : a = addr
    · simp only [updateStats, if_pos h, sumIn, List.map_cons, List.sum_cons, hf]
      omega
    · simp only [updateStats, if_neg h]
      simp only [sumIn, List.map_cons, List.sum_cons] at ih ⊢
      omega

lemma sumOut_recordTx (m : List (String × AddressStats)) (tx : Tx) :
    sumOut (recordTx m tx) = sumOut m + 1 := by
  unfold recordTx
  rw [sumOut_updateStats _ _ _ 0 (fun s => by simp),
      sumOut_updateStats _ _ _ 1 (fun s => rfl)]

lemma sumIn_recordTx (m : List (String × AddressStats)) (tx : Tx) :
    sumIn (recordTx m tx) = sumIn m + 1 := by
  unfold recordTx
  rw [sumIn_updateStats _ _ _ 1 (fun s => rfl),
      sumIn_updateStats _ _ _ 0 (fun s => by simp)]

lemma sumOut_buildStats_aux (network_data : List Tx)
    (m : List (String × AddressStats)) :
    sumOut (network_data.foldl recordTx m) = sumOut m + network_data.length := by
  induction network_data generalizing m with
  | nil => simp
  | cons tx rest ih =>
    simp only [List.foldl_cons, ih, sumOut_recordTx, List.length_cons]
    omega

lemma sumIn_buildStats_aux (network_data : List Tx)
    (m : List (String × AddressStats)) :
    sumIn (network_data.foldl recordTx m) = sumIn m + network_data.length := by
  induction network_data generalizing m with
  | nil => simp
  | cons tx rest ih =>
    simp only [List.foldl_cons, ih, sumIn_recordTx, List.length_cons]
    omega

lemma sum_cast_out (m : List (String × AddressStats)) :
    ((m.map (fun p => (p.2.out_degree : ℚ))).sum = (sumOut m : ℚ)) := by
  rw [sumOut, Nat.cast_list_sum, List.map_map]
  rfl

lemma sum_cast_in (m : List (String × AddressStats)) :
    ((m.map (fun p => (p.2.in_degree : ℚ))).sum = (sumIn m : ℚ)) := by
  rw [sumIn, Nat.cast_list_sum, List.map_map]
  rfl

/-- C2.  Each edge contributes exactly one `out_degree` increment to its
source and one `in_degree` increment to its destination, self-transfers
included, so both degree sums over all produced feature vectors equal the
edge count.  Feature-vector index 1 is `out_degree`, index 0 is
`in_degree`. -/
theorem feature_degree_sums (network_data : List Tx) :
    (((extract_network_features network_data).map
        (fun p => (p.2.get? 1).getD 0)).sum = (network_data.length : ℚ))
    ∧ (((extract_network_features network_data).map
        (fun p => (p.2.get? 0).getD 0)).sum = (network_data.length : ℚ)) := by
  have hout : ∀ m : List (String × AddressStats),
      ((m.map (fun p => (p.1, featureVector p.2))).map
        (fun p => (p.2.get? 1).getD 0)).sum
        = (m.map (fun p => (p.2.out_degree : ℚ))).sum := by
    intro m
    induction m with
    | nil => simp
    | cons p rest ih =>
      simp only [List.map_cons, List.sum_cons, ih]
      simp [featureVector]
  have hin : ∀ m : List (String × AddressStats),
      ((m.map (fun p => (p.1, featureVector p.2))).map
        (fun p => (p.2.get? 0).getD 0)).sum
        = (m.map (fun p => (p.2.in_degree : ℚ))).sum := by
    intro m
    induction m with
    | nil => simp
    | cons p rest ih =>
      simp only [List.map_cons, List.sum_cons, ih]
      simp [featureVector]
  constructor
  · rw [extract_network_features, hout, sum_cast_out]
    rw [buildStats, sumOut_buildStats_aux]
    simp [sumOut]
  · rw [extract_network_features, hin, sum_cast_in]
    rw [buildStats, sumIn_buildStats_aux]
    simp [sumIn]

/- ## `_analyze_funding_patterns` -/

/-- Insertion-ordered update of the `defaultdict(float)` that accumulates
external funding by source address: `external_funding[addr] += v`. -/
def addFunding : List (String × ℚ) → String → ℚ → List (String × ℚ)
  | [], addr, v => [(addr, v)]
  | (a, x) :: rest, addr, v =>
    if a = addr then (a, x + v) :: rest else (a, x) :: addFunding rest addr v

/-- The accumulation loop of `_analyze_funding_patterns`: every edge whose
destination is inside the cluster and whose source is outside adds
`tx.get('value', 0)` to its source's total. -/
def externalFunding (cluster_nodes : List String) (network_data : List Tx) :
    List (String × ℚ) :=
  network_data.foldl (fun m tx =>
    if tx.to_address ∈ cluster_nodes ∧ tx.from_address ∉ cluster_nodes then
      addFunding m tx.from_address tx.getValue
    else m) []

/-- Largest element of a list of rationals (0 for the empty list; the code
guards the empty case itself before calling `max`). -/
def listMaxQ : List ℚ → ℚ
  | [] => 0
  | x :: xs => xs.foldl max x

/-- Models `np.mean` on a nonempty list of (exact) numbers. -/
noncomputable def npMean (xs : List ℚ) : ℝ :=
  (xs.map (Rat.cast : ℚ → ℝ)).sum / (xs.length : ℝ)

/-- Models `np.std` (population standard deviation) on a nonempty list. -/
noncomputable def npStd (xs : List ℚ) : ℝ :=
  Real.sqrt ((xs.map (fun x => (Rat.cast x - npMean xs) ^ 2)).sum / (xs.length : ℝ))

/-- Result record of `_analyze_funding_patterns`.  `amount_similarity`
lives in `ℝ` because `np.std` takes a square root. -/
structure FundingAnalysis where
  external_funding_sources : ℕ
  total_funding_amount : ℚ
  funding_concentration : ℚ
  amount_similarity : ℝ

/-- `_analyze_funding_patterns`: external-funding totals per source, then
`funding_concentration = max_funding / max(1, total_funding)` and
`amount_similarity = 1 - np.std(amounts) / max(1, np.mean(amounts))` when
the funding set is nonempty, else 0. -/
noncomputable def analyze_funding_patterns (cluster_nodes : List String)
    (network_data : List Tx) : FundingAnalysis :=
  let external_funding := externalFunding cluster_nodes network_data
  let amounts := external_funding.map (fun p => p.2)
  let total_funding := amounts.sum
  let max_funding := if external_funding = [] then 0 else listMaxQ amounts
  { external_funding_sources := external_funding.length
    total_funding_amount := total_funding / 10 ^ 18
    funding_concentration := max_funding / max 1 total_funding
    amount_similarity :=
      if amounts ≠ [] then 1 - npStd amounts / max 1 (npMean amounts) else 0 }

/- ## Spec-side description of the funding analysis -/

/-- Edges that fund the cluster from outside: destination inside, source
outside. -/
def inflowTxs (cluster_nodes : List String) (network_data : List Tx) : List Tx :=
  network_data.filter
    (fun tx => tx.to_address ∈ cluster_nodes ∧ tx.from_address ∉ cluster_nodes)

/-- The external source addresses funding the cluster, with multiplicity. -/
def inflowSenders (cluster_nodes : List String) (network_data : List Tx) :
    List String :=
  (inflowTxs cluster_nodes network_data).map (fun tx => tx.from_address)

/-- Total volume sent by source `s` into the cluster (the spec's
"aggregate volume by external source address"). -/
def specTotal (cluster_nodes : List String) (network_data : List Tx)
    (s : String) : ℚ :=
  ((network_data.filter
      (fun tx => tx.to_address ∈ cluster_nodes ∧ tx.from_address ∉ cluster_nodes
        ∧ tx.from_address = s)).map Tx.getValue).sum

/-- Lookup in an insertion-ordered association list. -/
def alookup : List (String × ℚ) → String → Option ℚ
  | [], _ => none
  | (a, x) :: rest, s => if a = s then some x else alookup rest s

/-- Funding recorded so far for `s` (0 when `s` has no entry). -/
def fval (m : List (String × ℚ)) (s : String) : ℚ := (alookup m s).getD 0

lemma alookup_addFunding_same (m : List (String × ℚ)) (a : String) (v : ℚ) :
    alookup (addFunding m a v) a = some (fval m a + v) := by
  induction m with
  | nil => simp [addFunding, alookup, fval]
  | cons p rest ih =>
    obtain ⟨b, x⟩ := p
    by_cases h : b = a
    · simp [addFunding, alookup, h, fval]
    · simp [addFunding, alookup, h, fval] at ih ⊢
      exact ih

lemma alookup_addFunding_other (m : List (String × ℚ)) (a s : String) (v : ℚ)
    (hs : s ≠ a) : alookup (addFunding m a v) s = alookup m s := by
  induction m with
  | nil => simp [addFunding, alookup, Ne.symm hs]
  | cons p rest ih =>
    obtain ⟨b, x⟩ := p
    by_cases h : b = a
    · subst h
      simp [addFunding, alookup, Ne.symm hs]
    · simp only [addFunding, if_neg h, alookup]
      rw [ih]

lemma fval_fundingStep (cluster_nodes : List String) (m : List (String × ℚ))
    (tx : Tx) (s : String) :
    fval (if tx.to_address ∈ cluster_nodes ∧ tx.from_address ∉ cluster_nodes then
        addFunding m tx.from_address tx.getValue
      else m) s
      = fval m s
        + (if tx.to_address ∈ cluster_nodes ∧ tx.from_address ∉ cluster_nodes
            ∧ tx.from_address = s then tx.getValue else 0) := by
  by_cases hc : tx.to_address ∈ cluster_nodes ∧ tx.from_address ∉ cluster_nodes
  · rw [if_pos hc]
    by_cases h2 : tx.from_address = s
    · subst h2
      rw [if_pos ⟨hc.1, hc.2, rfl⟩]
      simp [fval, alookup_addFunding_same]
    · rw [if_neg (fun h => h2 h.2.2)]
      rw [fval, alookup_addFunding_other _ _ _ _ (Ne.symm h2)]
      simp [fval]
  · rw [if_neg hc, if_neg (fun h => hc ⟨h.1, h.2.1⟩)]
    simp

lemma fval_foldl_funding (cluster_nodes : List String) (network_data : List Tx)
    (m : List (String × ℚ)) (s : String) :
    fval (network_data.foldl (fun m tx =>
        if tx.to_address ∈ cluster_nodes ∧ tx.from_address ∉ cluster_nodes then
          addFunding m tx.from_address tx.getValue
        else m) m) s
      = fval m s + specTotal cluster_nodes network_data s := by
  induction network_data generalizing m with
  | nil => simp [specTotal]
  | cons tx rest ih =>
    have hspec : specTotal cluster_nodes (tx :: rest) s
        = (if tx.to_address ∈ cluster_nodes ∧ tx.from_address ∉ cluster_nodes
             ∧ tx.from_address = s then tx.getValue else 0)
          + specTotal cluster_nodes rest s := by
      by_cases h : tx.to_address ∈ cluster_nodes ∧ tx.from_address ∉ cluster_nodes
          ∧ tx.from_address = s
      · rw [if_pos h]
        simp only [specTotal, List.filter_cons]
        rw [if_pos (decide_eq_true h)]
        simp
      · rw [if_neg h]
        simp only [specTotal, List.filter_cons]
        rw [if_neg (by simpa using h)]
        simp
    rw [List.foldl_cons, ih, hspec, fval_fundingStep]
    ring

lemma mem_keys_addFunding (m : List (String × ℚ)) (a : String) (v : ℚ)
    (s : String) :
    s ∈ (addFunding m a v).map Prod.fst ↔ s ∈ m.map Prod.fst ∨ s = a := by
  induction m with
  | nil => simp [addFunding]
  | cons p rest ih =>
    obtain ⟨b, x⟩ := p
    by_cases h : b = a <;> by_cases h2 : s = b <;>
      simp [addFunding, h, h2, ih] <;> tauto

/-- Keys of the funding map after the fold. -/
lemma mem_keys_foldl_funding (cluster_nodes : List String)
    (network_data : List Tx) (m : List (String × ℚ)) (s : String) :
    (s ∈ (network_data.foldl (fun m tx =>
        if tx.to_address ∈ cluster_nodes ∧ tx.from_address ∉ cluster_nodes then
          addFunding m tx.from_address tx.getValue
        else m) m).map Prod.fst)
      ↔ s ∈ m.map Prod.fst ∨ s ∈ inflowSenders cluster_nodes network_data := by
  induction network_data generalizing m with
  | nil => simp [inflowSenders, inflowTxs]
  | cons tx rest ih =>
    have hsend : inflowSenders cluster_nodes (tx :: rest)
        = (if tx.to_address ∈ cluster_nodes ∧ tx.from_address ∉ cluster_nodes
            then [tx.from_address] else [])
          ++ inflowSenders cluster_nodes rest := by
      by_cases h1 : tx.to_address ∈ cluster_nodes ∧ tx.from_address ∉ cluster_nodes
      · rw [if_pos h1]
        simp only [inflowSenders, inflowTxs, List.filter_cons]
        rw [if_pos (decide_eq_true h1)]
        simp
      · rw [if_neg h1]
        simp only [inflowSenders, inflowTxs, List.filter_cons]
        rw [if_neg (by simpa using h1)]
        simp
    rw [List.foldl_cons, ih, hsend]
    by_cases h1 : tx.to_address ∈ cluster_nodes ∧ tx.from_address ∉ cluster_nodes
    · rw [if_pos h1, if_pos h1, mem_keys_addFunding]
      simp
      tauto
    · rw [if_neg h1, if_neg h1]
      simp

lemma nodup_keys_addFunding (m : List (String × ℚ)) (a : String) (v : ℚ)
    (hm : (m.map Prod.fst).Nodup) :
    ((addFunding m a v).map Prod.fst).Nodup := by
  induction m with
  | nil => simp [addFunding]
  | cons p rest ih =>
    obtain ⟨b, x⟩ := p
    simp only [List.map_cons, List.nodup_cons] at hm
    by_cases h : b = a
    · simp only [addFunding, if_pos h, List.map_cons, List.nodup_cons]
      exact ⟨hm.1, hm.2⟩
    · simp only [addFunding, if_neg h, List.map_cons, List.nodup_cons]
      refine ⟨?_, ih hm.2⟩
      rw [mem_keys_addFunding]
      rintro (hb | hb)
      · exact hm.1 hb
      · exact h hb

lemma nodup_keys_foldl_funding (cluster_nodes : List String)
    (network_data : List Tx) (m : List (String × ℚ))
    (hm : (m.map Prod.fst).Nodup) :
    ((network_data.foldl (fun m tx =>
        if tx.to_address ∈ cluster_nodes ∧ tx.from_address ∉ cluster_nodes then
          addFunding m tx.from_address tx.getValue
        else m) m).map Prod.fst).Nodup := by
  induction network_data generalizing m with
  | nil => exact hm
  | cons tx rest ih =>
    rw [List.foldl_cons]
    apply ih
    split
    · exact nodup_keys_addFunding m _ _ hm
    · exact hm

lemma alookup_of_mem_nodup (m : List (String × ℚ)) (s : String) (q : ℚ)
    (hm : (m.map Prod.fst).Nodup) (hmem : (s, q) ∈ m) :
    alookup m s = some q := by
  induction m with
  | nil => simp at hmem
  | cons p rest ih =>
    obtain ⟨b, x⟩ := p
    simp only [List.map_cons, List.nodup_cons] at hm
    rcases List.mem_cons.mp hmem with h | h
    · cases h
      simp [alookup]
    · have hne : b ≠ s := by
        intro hbs
        subst hbs
        exact hm.1 (List.mem_map.mpr ⟨(b, q), h, rfl⟩)
      simp only [alookup, if_neg hne]
      exact ih hm.2 h

/-- Every entry of the funding map pairs a key with exactly the spec-side
per-source total. -/
lemma entry_eq_specTotal (cluster_nodes : List String) (network_data : List Tx)
    (s : String) (q : ℚ)
    (hmem : (s, q) ∈ externalFunding cluster_nodes network_data) :
    q = specTotal cluster_nodes network_data s := by
  have hnodup := nodup_keys_foldl_funding cluster_nodes network_data [] (by simp)
  have hval := fval_foldl_funding cluster_nodes network_data [] s
  have hlook : alookup (externalFunding cluster_nodes network_data) s = some q :=
    alookup_of_mem_nodup _ _ _ hnodup hmem
  rw [externalFunding] at hlook
  rw [fval, hlook] at hval
  simpa [fval, alookup] using hval

lemma le_foldl_max (xs : List ℚ) (a : ℚ) : a ≤ xs.foldl max a := by
  induction xs generalizing a with
  | nil => exact le_refl a
  | cons x xs ih => exact le_trans (le_max_left a x) (ih (max a x))

lemma foldl_max_choice (xs : List ℚ) (a : ℚ) :
    xs.foldl max a = a ∨ xs.foldl max a ∈ xs := by
  induction xs generalizing a with
  | nil => left; rfl
  | cons x xs ih =>
    simp only [List.foldl_cons]
    rcases ih (max a x) with h | h
    · rw [h]
      rcases max_choice a x with h2 | h2
      · left; exact h2
      · right; rw [h2]; exact List.mem_cons_self x xs
    · right; exact List.mem_cons_of_mem x h

lemma mem_le_foldl_max (xs : List ℚ) : ∀ (a x : ℚ), x ∈ xs → x ≤ xs.foldl max a := by
  induction xs with
  | nil => intro a x hx; simp at hx
  | cons y ys ih =>
    intro a x hx
    rcases List.mem_cons.mp hx with h | h
    · subst h
      exact le_trans (le_max_right a x) (le_foldl_max ys (max a x))
    · exact ih (max a y) x h

lemma listMaxQ_mem (l : List ℚ) (hl : l ≠ []) : listMaxQ l ∈ l := by
  match l with
  | x :: xs =>
    rcases foldl_max_choice xs x with h | h
    · rw [listMaxQ, h]; exact List.mem_cons_self x xs
    · rw [listMaxQ]; exact List.mem_cons_of_mem x h

lemma le_listMaxQ (l : List ℚ) (x : ℚ) (hx : x ∈ l) : x ≤ listMaxQ l := by
  match l with
  | y :: ys =>
    rcases List.mem_cons.mp hx with h | h
    · subst h; exact le_foldl_max ys x
    · exact mem_le_foldl_max ys y x h

/-- Keys of the final funding map coincide with the distinct inflow
senders. -/
lemma keys_toFinset_eq (cluster_nodes : List String) (network_data : List Tx) :
    ((externalFunding cluster_nodes network_data).map Prod.fst).toFinset
      = (inflowSenders cluster_nodes network_data).toFinset := by
  ext s
  simp only [List.mem_toFinset]
  rw [show (externalFunding cluster_nodes network_data)
      = (network_data.foldl (fun m tx =>
          if tx.to_address ∈ cluster_nodes ∧ tx.from_address ∉ cluster_nodes then
            addFunding m tx.from_address tx.getValue
          else m) []) from rfl]
  rw [mem_keys_foldl_funding]
  simp

/-- Any `g`-image sum over the funding map's values equals the
corresponding sum over the distinct inflow senders' spec-side totals. -/
lemma values_map_sum {α : Type} [AddCommMonoid α]
    (cluster_nodes : List String) (network_data : List Tx) (g : ℚ → α) :
    (((externalFunding cluster_nodes network_data).map Prod.snd).map g).sum
      = ∑ s ∈ (inflowSenders cluster_nodes network_data).toFinset,
          g (specTotal cluster_nodes network_data s) := by
  have hnodup : ((externalFunding cluster_nodes network_data).map Prod.fst).Nodup :=
    nodup_keys_foldl_funding cluster_nodes network_data [] (by simp)
  calc (((externalFunding cluster_nodes network_data).map Prod.snd).map g).sum
      = ((externalFunding cluster_nodes network_data).map
          (fun p => g (specTotal cluster_nodes network_data p.1))).sum := by
        rw [List.map_map]
        apply congrArg
        apply List.map_congr_left
        intro p hp
        simp [entry_eq_specTotal cluster_nodes network_data p.1 p.2
          (by simpa using hp)]
    _ = (((externalFunding cluster_nodes network_data).map Prod.fst).map
          (fun s => g (specTotal cluster_nodes network_data s))).sum := by
        rw [List.map_map]
        rfl
    _ = ∑ s ∈ ((externalFunding cluster_nodes network_data).map Prod.fst).toFinset,
          g (specTotal cluster_nodes network_data s) :=
        (List.sum_toFinset _ hnodup).symm
    _ = ∑ s ∈ (inflowSenders cluster_nodes network_data).toFinset,
          g (specTotal cluster_nodes network_data s) := by
        rw [keys_toFinset_eq]

lemma externalFunding_eq_nil_iff (cluster_nodes : List String)
    (network_data : List Tx) :
    externalFunding cluster_nodes network_data = []
      ↔ inflowSenders cluster_nodes network_data = [] := by
  constructor
  · intro h
    by_contra hs
    obtain ⟨s, hmem⟩ := List.exists_mem_of_ne_nil _ hs
    have hk : s ∈ (externalFunding cluster_nodes network_data).map Prod.fst :=
      (mem_keys_foldl_funding cluster_nodes network_data [] s).mpr
        (Or.inr hmem)
    rw [h] at hk
    simp at hk
  · intro h
    by_contra he
    obtain ⟨p, hp⟩ := List.exists_mem_of_ne_nil _ he
    have hk : p.1 ∈ (externalFunding cluster_nodes network_data).map Prod.fst :=
      List.mem_map_of_mem _ hp
    have h2 := (mem_keys_foldl_funding cluster_nodes network_data [] p.1).mp hk
    rw [h] at h2
    simp at h2

/-- Follows the spec's words: the distinct external source addresses
sending into the cluster. -/
def specSenders (cluster_nodes : List String) (network_data : List Tx) :
    Finset String :=
  (inflowSenders cluster_nodes network_data).toFinset

/-- Follows the spec's words: total funding volume, summed over the
distinct external sources' per-source totals. -/
def specTotalFunding (cluster_nodes : List String) (network_data : List Tx) : ℚ :=
  ∑ s ∈ specSenders cluster_nodes network_data,
    specTotal cluster_nodes network_data s

/-- Mean of the per-source funding totals. -/
noncomputable def specMeanFunding (cluster_nodes : List String)
    (network_data : List Tx) : ℝ :=
  (specTotalFunding cluster_nodes network_data : ℝ)
    / (specSenders cluster_nodes network_data).card

/-- Population standard deviation of the per-source funding totals. -/
noncomputable def specStdFunding (cluster_nodes : List String)
    (network_data : List Tx) : ℝ :=
  Real.sqrt ((∑ s ∈ specSenders cluster_nodes network_data,
      ((specTotal cluster_nodes network_data s : ℝ)
        - specMeanFunding cluster_nodes network_data) ^ 2)
    / (specSenders cluster_nodes network_data).card)

/-- C6 (amended).  The funding analysis reports the distinct count of
external sources, the summed per-source totals, and concentration equal to
the maximum single-source total over `max 1 total`; `amount_similarity`
is `1 - std / max(1, mean)` of the per-source totals — the divisor is
`max(1, mean)`, not the bare mean — and 0 for an empty funding set. -/
theorem funding_analysis_refines_spec (cluster_nodes : List String)
    (network_data : List Tx) :
    (analyze_funding_patterns cluster_nodes network_data).external_funding_sources
      = (specSenders cluster_nodes network_data).card
    ∧ (analyze_funding_patterns cluster_nodes network_data).total_funding_amount
      = specTotalFunding cluster_nodes network_data / 10 ^ 18
    ∧ (inflowSenders cluster_nodes network_data = [] →
        (analyze_funding_patterns cluster_nodes network_data).funding_concentration = 0
        ∧ (analyze_funding_patterns cluster_nodes network_data).amount_similarity = 0)
    ∧ (inflowSenders cluster_nodes network_data ≠ [] →
        (∃ smax ∈ specSenders cluster_nodes network_data,
          (∀ t ∈ specSenders cluster_nodes network_data,
            specTotal cluster_nodes network_data t
              ≤ specTotal cluster_nodes network_data smax)
          ∧ (analyze_funding_patterns cluster_nodes network_data).funding_concentration
              = specTotal cluster_nodes network_data smax
                / max 1 (specTotalFunding cluster_nodes network_data))
        ∧ (analyze_funding_patterns cluster_nodes network_data).amount_similarity
            = 1 - specStdFunding cluster_nodes network_data
                / max 1 (specMeanFunding cluster_nodes network_data)) := by
  have hnodup : ((externalFunding cluster_nodes network_data).map Prod.fst).Nodup :=
    nodup_keys_foldl_funding cluster_nodes network_data [] (by simp)
  have hfa : analyze_funding_patterns cluster_nodes network_data
      = { external_funding_sources := (externalFunding cluster_nodes network_data).length
          total_funding_amount :=
            ((externalFunding cluster_nodes network_data).map Prod.snd).sum / 10 ^ 18
          funding_concentration :=
            (if externalFunding cluster_nodes network_data = [] then 0
              else listMaxQ ((externalFunding cluster_nodes network_data).map Prod.snd))
              / max 1 ((externalFunding cluster_nodes network_data).map Prod.snd).sum
          amount_similarity :=
            if (externalFunding cluster_nodes network_data).map Prod.snd ≠ [] then
              1 - npStd ((externalFunding cluster_nodes network_data).map Prod.snd)
                / max 1 (npMean ((externalFunding cluster_nodes network_data).map Prod.snd))
            else 0 } := rfl
  have hVsum : ((externalFunding cluster_nodes network_data).map Prod.snd).sum
      = specTotalFunding cluster_nodes network_data := by
    have h := values_map_sum cluster_nodes network_data (id : ℚ → ℚ)
    simpa [specTotalFunding, specSenders] using h
  have hVlen : ((externalFunding cluster_nodes network_data).map Prod.snd).length
      = (specSenders cluster_nodes network_data).card := by
    rw [List.length_map, specSenders, ← keys_toFinset_eq cluster_nodes network_data,
      List.toFinset_card_of_nodup hnodup, List.length_map]
  have hMean : npMean ((externalFunding cluster_nodes network_data).map Prod.snd)
      = specMeanFunding cluster_nodes network_data := by
    rw [npMean, specMeanFunding, hVlen]
    have h := values_map_sum cluster_nodes network_data (Rat.cast : ℚ → ℝ)
    rw [h]
    congr 1
    rw [specTotalFunding, specSenders]
    push_cast
    rfl
  have hStd : npStd ((externalFunding cluster_nodes network_data).map Prod.snd)
      = specStdFunding cluster_nodes network_data := by
    rw [npStd, specStdFunding, hVlen]
    congr 2
    rw [values_map_sum cluster_nodes network_data
      (fun x => (Rat.cast x
        - npMean ((externalFunding cluster_nodes network_data).map Prod.snd)) ^ 2)]
    rw [hMean, specSenders]
  refine ⟨?_, ?_, ?_, ?_⟩
  · rw [hfa]
    show (externalFunding cluster_nodes network_data).length = _
    rw [show (externalFunding cluster_nodes network_data).length
        = ((externalFunding cluster_nodes network_data).map Prod.fst).length by simp,
      ← List.toFinset_card_of_nodup hnodup, keys_toFinset_eq, specSenders]
  · rw [hfa]
    show ((externalFunding cluster_nodes network_data).map Prod.snd).sum / 10 ^ 18 = _
    rw [hVsum]
  · intro hempty
    have hE : externalFunding cluster_nodes network_data = [] :=
      (externalFunding_eq_nil_iff cluster_nodes network_data).mpr hempty
    rw [hfa]
    constructor
    · show (if externalFunding cluster_nodes network_data = [] then (0 : ℚ)
          else _) / max 1 _ = 0
      rw [if_pos hE, hE]
      simp
    · show (if (externalFunding cluster_nodes network_data).map Prod.snd ≠ [] then
          _ else (0 : ℝ)) = 0
      rw [hE]
      simp
  · intro hne
    have hE : externalFunding cluster_nodes network_data ≠ [] :=
      fun h => hne ((externalFunding_eq_nil_iff cluster_nodes network_data).mp h)
    have hVne : (externalFunding cluster_nodes network_data).map Prod.snd ≠ [] := by
      simpa using hE
    constructor
    · obtain ⟨p, hp, hpval⟩ := List.mem_map.mp
        (listMaxQ_mem ((externalFunding cluster_nodes network_data).map Prod.snd) hVne)
      refine ⟨p.1, ?_, ?_, ?_⟩
      · rw [specSenders, ← keys_toFinset_eq cluster_nodes network_data,
          List.mem_toFinset]
        exact List.mem_map_of_mem _ hp
      · intro t ht
        rw [specSenders, ← keys_toFinset_eq cluster_nodes network_data,
          List.mem_toFinset] at ht
        obtain ⟨p2, hp2, hp2fst⟩ := List.mem_map.mp ht
        have h1 : specTotal cluster_nodes network_data t = p2.2 := by
          rw [← hp2fst]
          exact (entry_eq_specTotal cluster_nodes network_data p2.1 p2.2
            (by simpa using hp2)).symm
        have h2 : specTotal cluster_nodes network_data p.1 = p.2 :=
          (entry_eq_specTotal cluster_nodes network_data p.1 p.2
            (by simpa using hp)).symm
        rw [h1, h2, hpval]
        exact le_listMaxQ _ _ (List.mem_map_of_mem _ hp2)
      · have h2 : specTotal cluster_nodes network_data p.1 = p.2 :=
          (entry_eq_specTotal cluster_nodes network_data p.1 p.2
            (by simpa using hp)).symm
        rw [hfa]
        show (if externalFunding cluster_nodes network_data = [] then (0 : ℚ)
            else listMaxQ _) / max 1 _ = _
        rw [if_neg hE, hVsum, h2, hpval]
    · rw [hfa]
      show (if (externalFunding cluster_nodes network_data).map Prod.snd ≠ [] then
          _ else (0 : ℝ)) = _
      rw [if_pos hVne, hStd, hMean]

/-- C6 counterexample input: cluster containing only address `a`, funded by
`b` with value 1 and `c` with value 0. -/
def c6data : List Tx :=
  [⟨"b", "a", some 1, none⟩, ⟨"c", "a", some 0, none⟩]

/-- The claim's formula for amount similarity (division by the mean itself,
with no floor at 1). -/
noncomputable def claimAmountSimilarity (xs : List ℚ) : ℝ :=
  if xs ≠ [] then 1 - npStd xs / npMean xs else 0

/-- C6 counterexample.  On `c6data` the per-source totals are `[1, 0]`
(mean `1/2`, standard deviation `1/2`), so the code computes
`1 - (1/2) / max 1 (1/2) = 1/2`, while the claim's formula
`1 - (1/2) / (1/2)` gives 0: the claimed divisor (the bare mean) does not
match the code's `max(1, mean)`. -/
theorem funding_similarity_counterexample :
    (analyze_funding_patterns ["a"] c6data).amount_similarity = 1 / 2
    ∧ claimAmountSimilarity ((externalFunding ["a"] c6data).map Prod.snd) = 0
    ∧ (1 / 2 : ℝ) ≠ 0 := by
  have hext : externalFunding ["a"] c6data = [("b", 1), ("c", 0)] := by rfl
  have hV : (externalFunding ["a"] c6data).map Prod.snd = [(1 : ℚ), 0] := rfl
  have hmean : npMean [(1 : ℚ), 0] = 1 / 2 := by
    rw [npMean]
    norm_num
  have hstd : npStd [(1 : ℚ), 0] = 1 / 2 := by
    have hinner : (([(1 : ℚ), 0]).map
          (fun x => (Rat.cast x - npMean [(1 : ℚ), 0]) ^ 2)).sum
        / (([(1 : ℚ), 0].length : ℝ)) = ((1 : ℝ) / 2) ^ 2 := by
      rw [hmean]
      norm_num
    rw [npStd, hinner, Real.sqrt_sq (by norm_num : (0 : ℝ) ≤ 1 / 2)]
  refine ⟨?_, ?_, by norm_num⟩
  · have hfa : (analyze_funding_patterns ["a"] c6data).amount_similarity
        = if ((externalFunding ["a"] c6data).map Prod.snd) ≠ [] then
            1 - npStd ((externalFunding ["a"] c6data).map Prod.snd)
              / max 1 (npMean ((externalFunding ["a"] c6data).map Prod.snd))
          else 0 := rfl
    rw [hfa, hV, if_pos (by simp), hstd, hmean,
      max_eq_left (by norm_num : (1 : ℝ) / 2 ≤ 1)]
    norm_num
  · rw [hV, claimAmountSimilarity, if_pos (by simp), hstd, hmean]
    norm_num

/- ## Model of `StandardScaler` + `DBSCAN` and `_detect_clusters` -/

/-- Mean of one feature column. -/
def colMean (col : List ℚ) : ℚ := col.sum / (col.length : ℚ)

/-- Population variance of one feature column (what `StandardScaler`
computes; `ddof = 0`). -/
def colVar (col : List ℚ) : ℚ :=
  (col.map (fun x => (x - colMean col) ^ 2)).sum / (col.length : ℚ)

/-- Feature column `k` of the feature matrix. -/
def colAt (rows : List (List ℚ)) (k : ℕ) : List ℚ :=
  rows.map (fun r => r.getD k 0)

/-- Squared Euclidean distance between two rows after z-score scaling.
`StandardScaler` divides each coordinate by the column's standard
deviation (1 when the variance is 0, its zero-variance guard), so the
squared scaled distance is `(x_k - y_k)^2 / var_k` summed over the
coordinates — this stays inside `ℚ`, avoiding the square root that the
scaled coordinates themselves would need. -/
def sqDistScaled (rows : List (List ℚ)) (x y : List ℚ) : ℚ :=
  ((List.range x.length).map (fun k =>
    (x.getD k 0 - y.getD k 0) ^ 2
      / (if colVar (colAt rows k) = 0 then 1 else colVar (colAt rows k)))).sum

/-- Neighborhood test of `DBSCAN(eps=0.5)`: scaled distance at most `eps`,
equivalently squared scaled distance at most `1/4`. -/
def withinEps (rows : List (List ℚ)) (x y : List ℚ) : Bool :=
  sqDistScaled rows x y ≤ 1 / 4

/-- Indexes of the sample points within `eps` of point `i` (the point
itself included, as in scikit-learn's neighborhood counting). -/
def neighborsOf (rows : List (List ℚ)) (i : ℕ) : List ℕ :=
  (List.range rows.length).filter
    (fun j => withinEps rows (rows.getD i []) (rows.getD j []))

/-- Core-point test: at least `min_samples` points (itself included)
within `eps`. -/
def isCorePt (rows : List (List ℚ)) (min_samples : ℕ) (i : ℕ) : Bool :=
  min_samples ≤ (neighborsOf rows i).length

/-- The cluster-expansion loop of DBSCAN: starting from a seed core point,
labels every density-reachable point with `labelNum`.  The loop is run on
explicit fuel (it terminates because every iteration pops the stack or
labels a previously unlabeled point); the traversal order does not affect
the resulting labels because every point reached in one expansion receives
the same label. -/
def expandCluster (rows : List (List ℚ)) (min_samples : ℕ) (labelNum : ℕ) :
    ℕ → List (Option ℕ) → List ℕ → List (Option ℕ)
  | 0, labels, _ => labels
  | _ + 1, labels, [] => labels
  | fuel + 1, labels, i :: stack =>
    if (labels.getD i none) = none then
      if isCorePt rows min_samples i then
        expandCluster rows min_samples labelNum fuel
          (labels.set i (some labelNum))
          (stack ++ (neighborsOf rows i).filter
            (fun j => ((labels.set i (some labelNum)).getD j none) = none))
      else
        expandCluster rows min_samples labelNum fuel
          (labels.set i (some labelNum)) stack
    else
      expandCluster rows min_samples labelNum fuel labels stack

/-- The outer scan of DBSCAN: points are visited in index order; each
unlabeled core point seeds a new cluster with the next label number. -/
def dbscanScan (rows : List (List ℚ)) (min_samples : ℕ) :
    List ℕ → ℕ → List (Option ℕ) → List (Option ℕ)
  | [], _, labels => labels
  | i :: rest, labelNum, labels =>
    if (labels.getD i none) = none ∧ isCorePt rows min_samples i then
      dbscanScan rows min_samples rest (labelNum + 1)
        (expandCluster rows min_samples labelNum
          (rows.length * rows.length + rows.length + 1) labels [i])
    else
      dbscanScan rows min_samples rest labelNum labels

/-- Models `DBSCAN(eps=0.5, min_samples).fit_predict` on the scaled
feature matrix: per-point labels, `none` for noise. -/
def dbscan_fit_predict (rows : List (List ℚ)) (min_samples : ℕ) :
    List (Option ℕ) :=
  dbscanScan rows min_samples (List.range rows.length) 0
    (List.replicate rows.length none)

/-- Appends an address to its label's group, preserving the
`defaultdict(list)` insertion order of `_detect_clusters`. -/
def addToGroup : List (ℕ × List String) → ℕ → String → List (ℕ × List String)
  | [], l, a => [(l, [a])]
  | (k, as) :: rest, l, a =>
    if k = l then (k, as ++ [a]) :: rest else (k, as) :: addToGroup rest l a

/-- Groups addresses by cluster label, dropping noise (`label == -1`). -/
def groupClusters (pairs : List (String × Option ℕ)) : List (ℕ × List String) :=
  pairs.foldl (fun acc p =>
    match p.2 with
    | none => acc
    | some l => addToGroup acc l p.1) []

/-- `_detect_clusters`: empty feature map short-circuits to an empty
cluster map; otherwise scale, cluster with
`DBSCAN(eps=0.5, min_samples=min_cluster_size)`, group by label, and keep
only groups of at least `min_cluster_size` members. -/
def detect_clusters (node_features : List (String × List ℚ))
    (min_cluster_size : ℕ) : List (ℕ × List String) :=
  if node_features = [] then []
  else
    let addresses := node_features.map Prod.fst
    let rows := node_features.map Prod.snd
    let labels := dbscan_fit_predict rows min_cluster_size
    (groupClusters (addresses.zip labels)).filter
      (fun c => min_cluster_size ≤ c.2.length)

lemma sqDistScaled_self (rows : List (List ℚ)) (x : List ℚ) :
    sqDistScaled rows x x = 0 := by
  rw [sqDistScaled]
  have h : ∀ k, (x.getD k 0 - x.getD k 0) ^ 2
      / (if colVar (colAt rows k) = 0 then 1 else colVar (colAt rows k)) = 0 := by
    intro k
    simp
  rw [List.map_congr_left (fun k _ => h k)]
  simp

/-- C7 (amended).  With zero addresses the detector returns the empty
cluster map at once; but the guard is only `if not node_features`, so with
exactly one address the clustering algorithm still runs: the address comes
back as a singleton cluster whenever `min_cluster_size ≤ 1`, and only
`min_cluster_size ≥ 2` makes the lone point noise and the result empty. -/
theorem detect_clusters_under_two_addresses (a : String) (v : List ℚ) (mcs : ℕ) :
    detect_clusters [] mcs = []
    ∧ (mcs ≤ 1 → detect_clusters [(a, v)] mcs = [(0, [a])])
    ∧ (2 ≤ mcs → detect_clusters [(a, v)] mcs = []) := by
  have hwithin : withinEps [v] ([v].getD 0 []) ([v].getD 0 []) = true := by
    rw [withinEps, sqDistScaled_self]
    norm_num
  have hneigh : neighborsOf [v] 0 = [0] := by
    show (List.range 1).filter
      (fun j => withinEps [v] ([v].getD 0 []) ([v].getD j [])) = [0]
    have h1 : List.range 1 = [0] := rfl
    rw [h1, List.filter_cons, List.filter_nil]
    rw [if_pos hwithin]
  refine ⟨by simp [detect_clusters], ?_, ?_⟩
  · intro hm
    have hcore : isCorePt [v] mcs 0 = true := by
      show decide (mcs ≤ (neighborsOf [v] 0).length) = true
      rw [hneigh]
      exact decide_eq_true hm
    have hlab : dbscan_fit_predict [v] mcs = [some 0] := by
      show dbscanScan [v] mcs [0] 0 [none] = [some 0]
      rw [dbscanScan, if_pos ⟨rfl, hcore⟩]
      have hexp : expandCluster [v] mcs 0
          (([v] : List (List ℚ)).length * ([v] : List (List ℚ)).length
            + ([v] : List (List ℚ)).length + 1) [none] [0]
          = [some 0] := by
        show expandCluster [v] mcs 0 (2 + 1) [none] [0] = [some 0]
        rw [expandCluster,
          if_pos (show ([(none : Option ℕ)].getD 0 none) = none from rfl),
          if_pos hcore]
        have hfil : (neighborsOf [v] 0).filter
            (fun j => (([(none : Option ℕ)].set 0 (some 0)).getD j none) = none)
            = [] := by
          rw [hneigh, List.filter_cons, List.filter_nil]
          rw [if_neg (by simp)]
        rw [hfil]
        rfl
      rw [hexp]
      rfl
    show (groupClusters (([(a, v)].map Prod.fst).zip
        (dbscan_fit_predict ([(a, v)].map Prod.snd) mcs))).filter
        (fun c => mcs ≤ c.2.length) = [(0, [a])]
    rw [show ([(a, v)].map Prod.snd) = [v] from rfl, hlab]
    show (groupClusters [(a, some 0)]).filter (fun c => mcs ≤ c.2.length)
      = [(0, [a])]
    rw [show groupClusters [(a, some 0)] = [(0, [a])] from rfl]
    rw [List.filter_cons, List.filter_nil, if_pos (decide_eq_true (by simpa using hm))]
  · intro hm
    have hcore : isCorePt [v] mcs 0 = false := by
      show decide (mcs ≤ (neighborsOf [v] 0).length) = false
      rw [hneigh]
      exact decide_eq_false (by simp; omega)
    have hlab : dbscan_fit_predict [v] mcs = [none] := by
      show dbscanScan [v] mcs [0] 0 [none] = [none]
      rw [dbscanScan, if_neg (by simp [hcore])]
      rfl
    show (groupClusters (([(a, v)].map Prod.fst).zip
        (dbscan_fit_predict ([(a, v)].map Prod.snd) mcs))).filter
        (fun c => mcs ≤ c.2.length) = []
    rw [show ([(a, v)].map Prod.snd) = [v] from rfl, hlab]
    rfl

/-- C7 counterexample.  One address with features and
`min_cluster_size = 1`: `_detect_clusters` does invoke DBSCAN and returns
a nonempty cluster map, falsifying "fewer than 2 addresses always yields
an empty cluster map". -/
theorem detect_clusters_single_counterexample :
    detect_clusters [("a", [0, 0, 0, 0, 0, 0, 0, 0])] 1 = [(0, ["a"])]
    ∧ [((0 : ℕ), ["a"])] ≠ ([] : List (ℕ × List String)) := by
  refine ⟨?_, by decide⟩
  have hwithin : withinEps [[(0 : ℚ), 0, 0, 0, 0, 0, 0, 0]]
      ([[(0 : ℚ), 0, 0, 0, 0, 0, 0, 0]].getD 0 [])
      ([[(0 : ℚ), 0, 0, 0, 0, 0, 0, 0]].getD 0 []) = true := by
    rw [withinEps, sqDistScaled_self]
    norm_num
  have hneigh : neighborsOf [[(0 : ℚ), 0, 0, 0, 0, 0, 0, 0]] 0 = [0] := by
    show (List.range 1).filter
      (fun j => withinEps [[(0 : ℚ), 0, 0, 0, 0, 0, 0, 0]]
        ([[(0 : ℚ), 0, 0, 0, 0, 0, 0, 0]].getD 0 [])
        ([[(0 : ℚ), 0, 0, 0, 0, 0, 0, 0]].getD j [])) = [0]
    have h1 : List.range 1 = [0] := rfl
    rw [h1, List.filter_cons, List.filter_nil, if_pos hwithin]
  have hcore : isCorePt [[(0 : ℚ), 0, 0, 0, 0, 0, 0, 0]] 1 0 = true := by
    show decide (1 ≤ (neighborsOf [[(0 : ℚ), 0, 0, 0, 0, 0, 0, 0]] 0).length) = true
    rw [hneigh]
    rfl
  have hlab : dbscan_fit_predict [[(0 : ℚ), 0, 0, 0, 0, 0, 0, 0]] 1 = [some 0] := by
    show dbscanScan [[(0 : ℚ), 0, 0, 0, 0, 0, 0, 0]] 1 [0] 0 [none] = [some 0]
    rw [dbscanScan, if_pos ⟨rfl, hcore⟩]
    have hexp : expandCluster [[(0 : ℚ), 0, 0, 0, 0, 0, 0, 0]] 1 0
        (([[(0 : ℚ), 0, 0, 0, 0, 0, 0, 0]] : List (List ℚ)).length
          * ([[(0 : ℚ), 0, 0, 0, 0, 0, 0, 0]] : List (List ℚ)).length
          + ([[(0 : ℚ), 0, 0, 0, 0, 0, 0, 0]] : List (List ℚ)).length + 1)
        [none] [0] = [some 0] := by
      show expandCluster [[(0 : ℚ), 0, 0, 0, 0, 0, 0, 0]] 1 0 (2 + 1) [none] [0]
        = [some 0]
      rw [expandCluster,
        if_pos (show ([(none : Option ℕ)].getD 0 none) = none from rfl),
        if_pos hcore]
      have hfil : (neighborsOf [[(0 : ℚ), 0, 0, 0, 0, 0, 0, 0]] 0).filter
          (fun j => (([(none : Option ℕ)].set 0 (some 0)).getD j none) = none)
          = [] := by
        rw [hneigh, List.filter_cons, List.filter_nil, if_neg (by simp)]
      rw [hfil]
      rfl
    rw [hexp]
    rfl
  show (groupClusters (([(("a" : String), [(0 : ℚ), 0, 0, 0, 0, 0, 0, 0])].map Prod.fst).zip
      (dbscan_fit_predict ([(("a" : String), [(0 : ℚ), 0, 0, 0, 0, 0, 0, 0])].map Prod.snd) 1))).filter
      (fun c => 1 ≤ c.2.length) = [(0, ["a"])]
  rw [show ([(("a" : String), [(0 : ℚ), 0, 0, 0, 0, 0, 0, 0])].map Prod.snd)
      = [[(0 : ℚ), 0, 0, 0, 0, 0, 0, 0]] from rfl, hlab]
  rfl

/- ## `_analyze_timing_patterns` -/

/-- The 15-minute window key built by
`timestamp.replace(minute=minute // 15 * 15, second=0, microsecond=0)`:
awareness flag plus the window start in epoch seconds (floored to a
multiple of 900). -/
def windowKey (dt : PyDatetime) : Bool × Int := (dt.aware, dt.secs.fdiv 900 * 900)

/-- Adds one address to a window's participant set
(`time_windows[window_key].add(...)` on a `defaultdict(set)`). -/
def addToWindow : List ((Bool × Int) × List String) → (Bool × Int) → String →
    List ((Bool × Int) × List String)
  | [], k, a => [(k, [a])]
  | (k2, members) :: rest, k, a =>
    if k2 = k then (k2, setAdd members a) :: rest
    else (k2, members) :: addToWindow rest k a

/-- One iteration of the window-bucketing loop.  A missing timestamp key,
a `None` value or an unparsable string raises inside the `try` and is
swallowed by the bare `except: continue`. -/
def timingStep (cluster_nodes : List String)
    (m : List ((Bool × Int) × List String)) (tx : Tx) :
    List ((Bool × Int) × List String) :=
  match tx.timestamp with
  | none => m
  | some ts =>
    match fromisoformat (replaceZ ts) with
    | none => m
    | some dt =>
      let m1 := if tx.from_address ∈ cluster_nodes then
          addToWindow m (windowKey dt) tx.from_address
        else m
      if tx.to_address ∈ cluster_nodes then
        addToWindow m1 (windowKey dt) tx.to_address
      else m1

/-- Result record of `_analyze_timing_patterns`.  `coordinated_windows`
keeps the window key itself where the source serializes it with
`isoformat()` (a pure formatting step); `peak_coordination` is `none` on
the early `if not cluster_txs` return, whose dict genuinely lacks the
key. -/
structure TimingAnalysis where
  activity_correlation : ℚ
  coordinated_windows : List ((Bool × Int) × ℚ)
  peak_coordination : Option ℚ

/-- `_analyze_timing_patterns`: bucket the cluster's transactions into
15-minute windows, compute each window's participation fraction, and
report mean, over-half windows, and maximum. -/
def analyze_timing_patterns (cluster_nodes : List String)
    (cluster_txs : List Tx) : TimingAnalysis :=
  if cluster_txs = [] then
    { activity_correlation := 0, coordinated_windows := [],
      peak_coordination := none }
  else
    let time_windows := cluster_txs.foldl (timingStep cluster_nodes) []
    let window_participation := time_windows.map
      (fun w => (w.2.length : ℚ) / (cluster_nodes.length : ℚ))
    { activity_correlation :=
        if window_participation ≠ [] then
          window_participation.sum / (window_participation.length : ℚ)
        else 0
      coordinated_windows :=
        (time_windows.filter
          (fun w => (w.2.length : ℚ) / (cluster_nodes.length : ℚ) > 1 / 2)).map
          (fun w => (w.1, (w.2.length : ℚ) / (cluster_nodes.length : ℚ)))
      peak_coordination :=
        some (if window_participation ≠ [] then listMaxQ window_participation
          else 0) }

/- ## `_detect_cluster_attack_patterns` -/

/-- The four indicator flags; flash-loan and mixer-usage are placeholder
fields the source never sets. -/
structure AttackIndicators where
  sybil_attack : Bool
  wash_trading : Bool
  flash_loan_attack : Bool
  mixer_usage : Bool
deriving DecidableEq

/-- `self.thresholds['sybil_min_cluster_size']`. -/
def sybilMinClusterSize : ℕ := 10

/-- Number of distinct external funding sources
(`len(funding_sources)` for the set built at lines 319-323). -/
def fundingSourcesCount (cluster_nodes : List String)
    (network_data : List Tx) : ℕ :=
  (((network_data.filter
      (fun tx => tx.to_address ∈ cluster_nodes
        ∧ tx.from_address ∉ cluster_nodes)).map
      (fun tx => tx.from_address)).dedup).length

/-- `_detect_cluster_attack_patterns`: Sybil flag from cluster size and
distinct funding sources; wash-trading flag from internal volume
exceeding twice the external volume.  The volume sums read `tx['value']`
directly, so a transaction without a `value` key raises `KeyError`. -/
def detect_cluster_attack_patterns (cluster_nodes : List String)
    (network_data : List Tx) : Except String AttackIndicators := do
  let sybil : Bool :=
    if sybilMinClusterSize ≤ cluster_nodes.length then
      decide (fundingSourcesCount cluster_nodes network_data ≤ 3)
    else false
  let internal_values ← (network_data.filter
      (fun tx => tx.from_address ∈ cluster_nodes
        ∧ tx.to_address ∈ cluster_nodes)).mapM Tx.reqValue
  let external_values ← (network_data.filter
      (fun tx => decide (tx.from_address ∈ cluster_nodes)
        != decide (tx.to_address ∈ cluster_nodes))).mapM Tx.reqValue
  pure { sybil_attack := sybil
         wash_trading := decide (internal_values.sum > external_values.sum * 2)
         flash_loan_attack := false
         mixer_usage := false }

/- ## `_calculate_cluster_risk_score`, `_classify_cluster_type`,
`_get_risk_level`, `_generate_cluster_recommendations` -/

open scoped Classical in
/-- `_calculate_cluster_risk_score`: additive integer score capped at
100.  Floating thresholds (0.8, 0.5, 0.7) are modelled as the exact
rationals they denote; the `amount_similarity` comparison lives in `ℝ`
and uses classical decidability. -/
noncomputable def calculate_cluster_risk_score (cluster_size : ℕ)
    (funding_analysis : FundingAnalysis) (timing_analysis : TimingAnalysis)
    (attack_indicators : AttackIndicators) : ℕ :=
  let s1 : ℕ := if 50 < cluster_size then 30
    else if 20 < cluster_size then 20
    else if 10 < cluster_size then 10 else 0
  let s2 : ℕ := if funding_analysis.funding_concentration > 4 / 5 then 25
    else if funding_analysis.funding_concentration > 1 / 2 then 15 else 0
  let s3 : ℕ := if funding_analysis.amount_similarity > (4 / 5 : ℝ) then 20 else 0
  let s4 : ℕ := if timing_analysis.activity_correlation > 7 / 10 then 25 else 0
  let s5 : ℕ := (cond attack_indicators.sybil_attack 1 0
    + cond attack_indicators.wash_trading 1 0
    + cond attack_indicators.flash_loan_attack 1 0
    + cond attack_indicators.mixer_usage 1 0) * 15
  min 100 (s1 + s2 + s3 + s4 + s5)

/-- `_classify_cluster_type`: the source's sequential conditionals. -/
def classify_cluster_type (funding_analysis : FundingAnalysis)
    (timing_analysis : TimingAnalysis)
    (attack_indicators : AttackIndicators) : String :=
  if attack_indicators.sybil_attack then "Sybil Attack Network"
  else if attack_indicators.wash_trading then "Wash Trading Ring"
  else if timing_analysis.activity_correlation > 7 / 10 then
    "Coordinated Bot Network"
  else if funding_analysis.funding_concentration > 4 / 5 then
    "Single-Source Funded Network"
  else "Organic Cluster"

/-- First-match-wins evaluation of an ordered rule table (how the spec
phrases the classification). -/
def firstMatch : List (Bool × String) → String → String
  | [], d => d
  | (b, s) :: rest, d => if b then s else firstMatch rest d

/-- The spec's priority table for classification, in its stated order. -/
def specPriorityTable (funding_analysis : FundingAnalysis)
    (timing_analysis : TimingAnalysis)
    (attack_indicators : AttackIndicators) : List (Bool × String) :=
  [(attack_indicators.sybil_attack, "Sybil Attack Network"),
   (attack_indicators.wash_trading, "Wash Trading Ring"),
   (decide (timing_analysis.activity_correlation > 7 / 10),
     "Coordinated Bot Network"),
   (decide (funding_analysis.funding_concentration > 4 / 5),
     "Single-Source Funded Network")]

/-- `_get_risk_level`. -/
def get_risk_level (risk_score : ℕ) : String :=
  if 80 ≤ risk_score then "CRITICAL"
  else if 60 ≤ risk_score then "HIGH"
  else if 40 ≤ risk_score then "MEDIUM"
  else if 20 ≤ risk_score then "LOW"
  else "MINIMAL"

/-- `_generate_cluster_recommendations`. -/
def generate_cluster_recommendations (cluster_type risk_level : String) :
    List String :=
  (if risk_level = "CRITICAL" ∨ risk_level = "HIGH" then
    ["Immediate investigation recommended",
     "Consider flagging all addresses in cluster"]
  else [])
  ++ (if cluster_type = "Sybil Attack Network" then
      ["Verify funding sources", "Check for identity verification bypassing"]
    else if cluster_type = "Wash Trading Ring" then
      ["Monitor for artificial volume inflation",
       "Check for market manipulation"]
    else [])

/- ## `_analyze_cluster_behavior` -/

/-- The per-cluster result dict. -/
structure ClusterAnalysisResult where
  cluster_id : ℕ
  cluster_type : String
  risk_score : ℕ
  risk_level : String
  size : ℕ
  addresses : List String
  internal_transactions : ℕ
  external_transactions : ℕ
  funding_analysis : FundingAnalysis
  timing_analysis : TimingAnalysis
  attack_indicators : AttackIndicators
  recommendations : List String

/-- `_analyze_cluster_behavior`: the only step that can raise is
`_detect_cluster_attack_patterns` (a `KeyError` on a missing `value`
key); everything before and after is total. -/
noncomputable def analyze_cluster_behavior (cluster_nodes : List String)
    (network_data : List Tx) (cluster_id : ℕ) :
    Except String ClusterAnalysisResult :=
  match detect_cluster_attack_patterns cluster_nodes network_data with
  | .error e => .error e
  | .ok attack_indicators =>
    .ok { cluster_id := cluster_id
          cluster_type := classify_cluster_type
            (analyze_funding_patterns cluster_nodes network_data)
            (analyze_timing_patterns cluster_nodes
              (network_data.filter (fun tx => tx.from_address ∈ cluster_nodes
                ∨ tx.to_address ∈ cluster_nodes)))
            attack_indicators
          risk_score := calculate_cluster_risk_score cluster_nodes.length
            (analyze_funding_patterns cluster_nodes network_data)
            (analyze_timing_patterns cluster_nodes
              (network_data.filter (fun tx => tx.from_address ∈ cluster_nodes
                ∨ tx.to_address ∈ cluster_nodes)))
            attack_indicators
          risk_level := get_risk_level (calculate_cluster_risk_score
            cluster_nodes.length
            (analyze_funding_patterns cluster_nodes network_data)
            (analyze_timing_patterns cluster_nodes
              (network_data.filter (fun tx => tx.from_address ∈ cluster_nodes
                ∨ tx.to_address ∈ cluster_nodes)))
            attack_indicators)
          size := cluster_nodes.length
          addresses := cluster_nodes
          internal_transactions := ((network_data.filter
            (fun tx => tx.from_address ∈ cluster_nodes
              ∨ tx.to_address ∈ cluster_nodes)).filter
            (fun tx => tx.from_address ∈ cluster_nodes
              ∧ tx.to_address ∈ cluster_nodes)).length
          external_transactions := (network_data.filter
            (fun tx => tx.from_address ∈ cluster_nodes
              ∨ tx.to_address ∈ cluster_nodes)).length
            - ((network_data.filter
              (fun tx => tx.from_address ∈ cluster_nodes
                ∨ tx.to_address ∈ cluster_nodes)).filter
              (fun tx => tx.from_address ∈ cluster_nodes
                ∧ tx.to_address ∈ cluster_nodes)).length
          funding_analysis := analyze_funding_patterns cluster_nodes network_data
          timing_analysis := analyze_timing_patterns cluster_nodes
            (network_data.filter (fun tx => tx.from_address ∈ cluster_nodes
              ∨ tx.to_address ∈ cluster_nodes))
          attack_indicators := attack_indicators
          recommendations := generate_cluster_recommendations
            (classify_cluster_type
              (analyze_funding_patterns cluster_nodes network_data)
              (analyze_timing_patterns cluster_nodes
                (network_data.filter (fun tx => tx.from_address ∈ cluster_nodes
                  ∨ tx.to_address ∈ cluster_nodes)))
              attack_indicators)
            (get_risk_level (calculate_cluster_risk_score cluster_nodes.length
              (analyze_funding_patterns cluster_nodes network_data)
              (analyze_timing_patterns cluster_nodes
                (network_data.filter (fun tx => tx.from_address ∈ cluster_nodes
                  ∨ tx.to_address ∈ cluster_nodes)))
              attack_indicators)) }

/- ## C8 and C9 -/

/-- C8.  The additive risk score is a natural number capped at 100, so it
lies in [0, 100] both as computed directly and on every result the
cluster behavior analyzer returns. -/
theorem risk_score_in_range :
    (∀ (cluster_size : ℕ) (fa : FundingAnalysis) (ta : TimingAnalysis)
      (ai : AttackIndicators),
      0 ≤ calculate_cluster_risk_score cluster_size fa ta ai
      ∧ calculate_cluster_risk_score cluster_size fa ta ai ≤ 100)
    ∧ (∀ (cluster_nodes : List String) (network_data : List Tx)
        (cluster_id : ℕ) (r : ClusterAnalysisResult),
        analyze_cluster_behavior cluster_nodes network_data cluster_id = .ok r →
        0 ≤ r.risk_score ∧ r.risk_score ≤ 100) := by
  have hbound : ∀ (cluster_size : ℕ) (fa : FundingAnalysis)
      (ta : TimingAnalysis) (ai : AttackIndicators),
      0 ≤ calculate_cluster_risk_score cluster_size fa ta ai
      ∧ calculate_cluster_risk_score cluster_size fa ta ai ≤ 100 := by
    intro cluster_size fa ta ai
    exact ⟨Nat.zero_le _, Nat.min_le_left 100 _⟩
  refine ⟨hbound, ?_⟩
  intro cluster_nodes network_data cluster_id r h
  cases hdet : detect_cluster_attack_patterns cluster_nodes network_data with
  | error e =>
    rw [analyze_cluster_behavior, hdet] at h
    exact absurd h (by simp)
  | ok ai =>
    rw [analyze_cluster_behavior, hdet] at h
    have hr := Except.ok.inj h
    rw [← hr]
    exact hbound _ _ _ _

/-- C9.  Classification is the first-match-wins evaluation of the spec's
priority table, so a cluster flagged as both Sybil and wash trading is
always "Sybil Attack Network" and never "Wash Trading Ring". -/
theorem classification_priority :
    (∀ (fa : FundingAnalysis) (ta : TimingAnalysis) (ai : AttackIndicators),
      classify_cluster_type fa ta ai
        = firstMatch (specPriorityTable fa ta ai) "Organic Cluster")
    ∧ (∀ (fa : FundingAnalysis) (ta : TimingAnalysis) (ai : AttackIndicators),
      ai.sybil_attack = true →
        classify_cluster_type fa ta ai = "Sybil Attack Network")
    ∧ (∀ (fa : FundingAnalysis) (ta : TimingAnalysis) (ai : AttackIndicators),
      ai.sybil_attack = true ∧ ai.wash_trading = true →
        classify_cluster_type fa ta ai ≠ "Wash Trading Ring") := by
  refine ⟨?_, ?_, ?_⟩
  · intro fa ta ai
    rw [classify_cluster_type, specPriorityTable]
    rw [firstMatch, firstMatch, firstMatch, firstMatch, firstMatch]
    simp
  · intro fa ta ai h
    rw [classify_cluster_type, if_pos h]
  · intro fa ta ai h
    rw [classify_cluster_type, if_pos h.1]
    decide

/- ## `_detect_attack_patterns` (cross-cluster coordination) -/

/-- One cross-cluster AttackPattern dict. -/
structure AttackPattern where
  pattern_type : String
  description : String
  risk_level : String
  evidence : String
deriving DecidableEq

/-- Transactions with one endpoint in each of the two given clusters
(in either direction). -/
def crossClusterTxs (network_data : List Tx) (c1 c2 : List String) : List Tx :=
  network_data.filter (fun tx =>
    (tx.from_address ∈ c1 ∧ tx.to_address ∈ c2)
    ∨ (tx.from_address ∈ c2 ∧ tx.to_address ∈ c1))

/-- The pattern record emitted for the ordered cluster pair
`(id1, id2)` with `count` crossing transactions. -/
def mkCrossPattern (id1 id2 count : ℕ) : AttackPattern :=
  { pattern_type := "Cross-Cluster Coordination"
    description := "Clusters " ++ toString id1 ++ " and " ++ toString id2
      ++ " show coordinated activity"
    risk_level := "HIGH"
    evidence := toString count ++ " transactions between clusters" }

/-- `_detect_attack_patterns`: both nested loops run over the full
cluster map, so every ordered pair of clusters with distinct ids is
examined — an unordered pair is examined twice. -/
def detect_attack_patterns (network_data : List Tx)
    (clusters : List (ℕ × List String)) : List AttackPattern :=
  clusters.flatMap (fun c1 => clusters.flatMap (fun c2 =>
    if c1.1 ≠ c2.1 then
      (if 5 < (crossClusterTxs network_data c1.2 c2.2).length then
        [mkCrossPattern c1.1 c2.1 (crossClusterTxs network_data c1.2 c2.2).length]
      else [])
    else []))

/- ## `_calculate_network_metrics`, `_prepare_galaxy_view_data` -/

/-- The network-wide metrics dict. -/
structure NetworkMetrics where
  clustering_coverage : ℚ
  average_cluster_size : ℚ
  total_value_flow : ℚ

/-- `_calculate_network_metrics`. -/
def calculate_network_metrics (network_data : List Tx)
    (clusters : List (ℕ × List String)) : NetworkMetrics :=
  { clustering_coverage := ((clusters.map (fun c => c.2.length)).sum : ℚ)
      / ((max 1 ((network_data.map (fun tx => tx.from_address)
          ++ network_data.map (fun tx => tx.to_address)).dedup.length) : ℕ) : ℚ)
    average_cluster_size :=
      if clusters ≠ [] then
        ((clusters.map (fun c => (c.2.length : ℚ))).sum) / (clusters.length : ℚ)
      else 0
    total_value_flow := ((network_data.map Tx.getValue).sum) / 10 ^ 18 }

/-- `_get_risk_color`. -/
def get_risk_color (risk_level : String) : String :=
  if risk_level = "CRITICAL" then "#ff4444"
  else if risk_level = "HIGH" then "#ff8800"
  else if risk_level = "MEDIUM" then "#ffbb00"
  else if risk_level = "LOW" then "#88cc00"
  else if risk_level = "MINIMAL" then "#00cc88"
  else "#cccccc"

/-- One galaxy-view node (one per cluster, not per address). -/
structure GalaxyNode where
  id : String
  group : String
  size : ℕ
  risk_score : ℕ
  color : String
  cluster_type : String

/-- The galaxy-view payload. -/
structure GalaxyViewData where
  nodes : List GalaxyNode
  cluster_meta : List (String × ClusterAnalysisResult)

/-- `_prepare_galaxy_view_data` (its `clusters` parameter is unused in the
source too; only `cluster_analysis` is read). -/
def prepare_galaxy_view_data (_clusters : List (ℕ × List String))
    (cluster_analysis : List ClusterAnalysisResult) : GalaxyViewData :=
  { nodes := cluster_analysis.map (fun a =>
      { id := "cluster_" ++ toString a.cluster_id
        group := "cluster"
        size := a.size
        risk_score := a.risk_score
        color := get_risk_color a.risk_level
        cluster_type := a.cluster_type })
    cluster_meta := cluster_analysis.map
      (fun a => ("cluster_" ++ toString a.cluster_id, a)) }

/- ## `analyze_network_clusters` (the orchestration) -/

/-- The `network_overview` dict. -/
structure NetworkOverview where
  total_addresses : ℕ
  total_transactions : ℕ
  cluster_count : ℕ
  suspicious_cluster_count : ℕ
deriving DecidableEq

/-- The successful aggregate result (`analysis_timestamp`, a wall-clock
string, is omitted from the model). -/
structure AggregateResult where
  network_overview : NetworkOverview
  clusters : List ClusterAnalysisResult
  attack_patterns : List AttackPattern
  network_metrics : NetworkMetrics
  galaxy_view_data : GalaxyViewData

/-- The three dict shapes `analyze_network_clusters` can return: the
early `{'clusters': [], 'analysis': ...}` no-data result, the full
aggregate, or the `{'error': ...}` dict produced by the single
`try`/`except` wrapping the whole body. -/
inductive Output where
  | noData (clusters : List ClusterAnalysisResult) (analysis : String)
  | result (agg : AggregateResult)
  | error (msg : String)

/-- `analyze_network_clusters` with the edge list supplied directly (the
source fetches it from its graph-store collaborator first).  The one
`except` at the function boundary turns any exception raised while
analyzing a cluster into the `{'error': ...}` dict; feature extraction,
clustering, pattern detection and metrics are total. -/
noncomputable def analyze_network_clusters (network_data : List Tx)
    (min_cluster_size : ℕ) : Output :=
  if network_data = [] then .noData [] "No network data available"
  else
    match (detect_clusters (extract_network_features network_data)
        min_cluster_size).mapM
        (fun c => analyze_cluster_behavior c.2 network_data c.1) with
    | .error e => .error e
    | .ok cluster_analysis =>
      .result
        { network_overview :=
            { total_addresses := ((network_data.map (fun tx => tx.from_address))
                ++ (network_data.map (fun tx => tx.to_address))).dedup.length
              total_transactions := network_data.length
              cluster_count := (detect_clusters
                (extract_network_features network_data) min_cluster_size).length
              suspicious_cluster_count := (cluster_analysis.filter
                (fun c => c.risk_level ≠ "LOW")).length }
          clusters := cluster_analysis
          attack_patterns := detect_attack_patterns network_data
            (detect_clusters (extract_network_features network_data)
              min_cluster_size)
          network_metrics := calculate_network_metrics network_data
            (detect_clusters (extract_network_features network_data)
              min_cluster_size)
          galaxy_view_data := prepare_galaxy_view_data
            (detect_clusters (extract_network_features network_data)
              min_cluster_size) cluster_analysis }

/- ## C4: empty input -/

/-- Reads the `cluster_count` a caller would find in the returned object
(present only on the aggregate shape). -/
def clusterCountOf : Output → Option ℕ
  | .result agg => some agg.network_overview.cluster_count
  | _ => none

/-- Reads the `total_addresses` field of the returned object. -/
def totalAddressesOf : Output → Option ℕ
  | .result agg => some agg.network_overview.total_addresses
  | _ => none

/-- C4 (amended).  An empty edge list takes the early
`if not network_data` return: the call yields the explicit no-data dict
`{'clusters': [], 'analysis': 'No network data available'}` — not a
failure, but an object carrying no `cluster_count` or `total_addresses`
fields. -/
theorem empty_edges_no_data (min_cluster_size : ℕ) :
    analyze_network_clusters [] min_cluster_size
      = Output.noData [] "No network data available"
    ∧ clusterCountOf (analyze_network_clusters [] min_cluster_size) = none
    ∧ totalAddressesOf (analyze_network_clusters [] min_cluster_size) = none :=
  ⟨rfl, rfl, rfl⟩

/-- C4 counterexample.  On `edges = []` with the default
`min_cluster_size = 5` the result object contains neither a
`cluster_count` nor a `total_addresses` field, so it cannot contain
"a cluster count equal to 0 and a total-address count equal to 0". -/
theorem empty_edges_counterexample :
    clusterCountOf (analyze_network_clusters [] 5) = none
    ∧ totalAddressesOf (analyze_network_clusters [] 5) = none
    ∧ analyze_network_clusters [] 5
        = Output.noData [] "No network data available" :=
  ⟨rfl, rfl, rfl⟩

/- ## C10: suspicious-cluster count -/

/-- The overview's `suspicious_cluster_count` agrees with counting the
returned clusters whose `risk_level` differs from `"LOW"` (trivially true
on the no-data and error shapes, which have no overview). -/
def overviewConsistent (o : Output) : Prop :=
  match o with
  | .result agg => agg.network_overview.suspicious_cluster_count
      = (agg.clusters.filter (fun c => c.risk_level ≠ "LOW")).length
  | _ => True

/-- C10.  `suspicious_cluster_count` counts exactly the clusters whose
risk level is not the literal string "LOW"; a `"MINIMAL"` cluster
(score below 20) is therefore counted as suspicious. -/
theorem suspicious_count_excludes_only_low :
    (∀ (network_data : List Tx) (min_cluster_size : ℕ),
      overviewConsistent (analyze_network_clusters network_data min_cluster_size))
    ∧ (∀ (l : List ClusterAnalysisResult) (c : ClusterAnalysisResult),
      ((c :: l).filter (fun x => x.risk_level ≠ "LOW")).length
        = (if c.risk_level = "LOW" then 0 else 1)
          + (l.filter (fun x => x.risk_level ≠ "LOW")).length)
    ∧ (∀ s : ℕ, s < 20 → get_risk_level s = "MINIMAL")
    ∧ ("MINIMAL" : String) ≠ "LOW" := by
  refine ⟨?_, ?_, ?_, by decide⟩
  · intro network_data min_cluster_size
    by_cases hd : network_data = []
    · rw [analyze_network_clusters, if_pos hd]
      trivial
    · rw [analyze_network_clusters, if_neg hd]
      cases hm : (detect_clusters (extract_network_features network_data)
          min_cluster_size).mapM
          (fun c => analyze_cluster_behavior c.2 network_data c.1) with
      | error e => trivial
      | ok cluster_analysis => exact rfl
  · intro l c
    by_cases h : c.risk_level = "LOW"
    · simp [List.filter_cons, h]
    · simp [List.filter_cons, h]
      omega
  · intro s hs
    rw [get_risk_level, if_neg (by omega), if_neg (by omega),
      if_neg (by omega), if_neg (by omega)]

/-- C10 witness: a score of 10 is `"MINIMAL"` and the empty-input call
keeps the overview consistent. -/
theorem suspicious_count_excludes_only_low_witness :
    overviewConsistent (analyze_network_clusters [] 5)
    ∧ get_risk_level 10 = "MINIMAL" :=
  ⟨suspicious_count_excludes_only_low.1 [] 5,
   suspicious_count_excludes_only_low.2.2.1 10 (by norm_num)⟩

/- ## C1: cross-cluster coordination -/

lemma crossClusterTxs_symm (network_data : List Tx) (c1 c2 : List String) :
    crossClusterTxs network_data c1 c2 = crossClusterTxs network_data c2 c1 := by
  rw [crossClusterTxs, crossClusterTxs]
  apply List.filter_congr
  intro tx _
  exact decide_eq_decide.mpr or_comm

/-- C1 (amended).  The detector iterates over ordered pairs: for two
clusters with distinct ids it emits one pattern per DIRECTION when the
(symmetric) crossing count exceeds 5 — two patterns per unordered pair —
and none otherwise. -/
theorem cross_cluster_pattern_per_ordered_pair (network_data : List Tx)
    (c1 c2 : ℕ × List String) (h : c1.1 ≠ c2.1) :
    crossClusterTxs network_data c1.2 c2.2
      = crossClusterTxs network_data c2.2 c1.2
    ∧ detect_attack_patterns network_data [c1, c2]
      = (if 5 < (crossClusterTxs network_data c1.2 c2.2).length then
          [mkCrossPattern c1.1 c2.1 (crossClusterTxs network_data c1.2 c2.2).length,
           mkCrossPattern c2.1 c1.1 (crossClusterTxs network_data c1.2 c2.2).length]
        else []) := by
  refine ⟨crossClusterTxs_symm network_data c1.2 c2.2, ?_⟩
  rw [detect_attack_patterns]
  simp only [List.flatMap_cons, List.flatMap_nil, List.append_nil]
  rw [if_neg (show ¬ (c1.1 ≠ c1.1) from fun hc => hc rfl),
    if_neg (show ¬ (c2.1 ≠ c2.1) from fun hc => hc rfl),
    if_pos h, if_pos (Ne.symm h),
    crossClusterTxs_symm network_data c2.2 c1.2]
  by_cases hcnt : 5 < (crossClusterTxs network_data c1.2 c2.2).length
  · rw [if_pos hcnt, if_pos hcnt, if_pos hcnt]
    simp
  · rw [if_neg hcnt, if_neg hcnt, if_neg hcnt]
    simp

/-- C1 witness: two clusters with no crossing transactions produce no
pattern. -/
theorem cross_cluster_pattern_witness :
    detect_attack_patterns [] [(0, ["a"]), (1, ["b"])] = [] := by
  have h := (cross_cluster_pattern_per_ordered_pair [] (0, ["a"]) (1, ["b"])
    (by decide)).2
  simpa using h

/-- C1 counterexample input: nine transactions crossing from `a` (cluster
0) to `b` (cluster 1). -/
def c1data9 : List Tx := List.replicate 9 ⟨"a", "b", some 1, none⟩

/-- Three crossing transactions. -/
def c1data3 : List Tx := List.replicate 3 ⟨"a", "b", some 1, none⟩

/-- C1 counterexample.  With 9 crossing transactions between two distinct
clusters the detector emits TWO "Cross-Cluster Coordination" patterns
(one per ordering), not exactly one; with 3 it emits none. -/
theorem cross_cluster_double_emission_counterexample :
    (detect_attack_patterns c1data9 [(0, ["a"]), (1, ["b"])]).length = 2
    ∧ (2 : ℕ) ≠ 1
    ∧ detect_attack_patterns c1data3 [(0, ["a"]), (1, ["b"])] = [] := by
  refine ⟨?_, by decide, ?_⟩
  · rfl
  · rfl

/- ## C3: fault propagation out of the per-cluster loop -/

lemma withinEps_self (rows : List (List ℚ)) (x : List ℚ) :
    withinEps rows x x = true := by
  rw [withinEps, sqDistScaled_self]
  norm_num

/-- C3 counterexample input: two mutual transfers between `a` and `b`,
both without a `value` key. -/
def c3data : List Tx := [⟨"a", "b", none, none⟩, ⟨"b", "a", none, none⟩]

/-- The feature vector both addresses of `c3data` share. -/
def c3row : List ℚ := [1, 1, 0, 0, 2, 1, 0, 0]

lemma c3_stats : buildStats c3data
    = [("a", ⟨1, 1, 0, 0, 2, ["b"], []⟩), ("b", ⟨1, 1, 0, 0, 2, ["a"], []⟩)] := by
  simp [c3data, buildStats, recordTx, updateStats, Tx.getValue,
    Tx.truthyTimestamp, setAdd, AddressStats.init]

lemma c3_features : extract_network_features c3data
    = [("a", c3row), ("b", c3row)] := by
  rw [extract_network_features, c3_stats]
  simp [featureVector, c3row, activitySpanFeature, balanceRatio]

lemma c3_neigh0 : neighborsOf [c3row, c3row] 0 = [0, 1] := by
  have hW : withinEps [c3row, c3row] c3row c3row = true := withinEps_self _ _
  show (List.range 2).filter
    (fun j => withinEps [c3row, c3row] ([c3row, c3row].getD 0 [])
      ([c3row, c3row].getD j [])) = [0, 1]
  rw [show List.range 2 = [0, 1] from rfl]
  simp [hW]

lemma c3_neigh1 : neighborsOf [c3row, c3row] 1 = [0, 1] := by
  have hW : withinEps [c3row, c3row] c3row c3row = true := withinEps_self _ _
  show (List.range 2).filter
    (fun j => withinEps [c3row, c3row] ([c3row, c3row].getD 1 [])
      ([c3row, c3row].getD j [])) = [0, 1]
  rw [show List.range 2 = [0, 1] from rfl]
  simp [hW]

lemma c3_core0 : isCorePt [c3row, c3row] 2 0 = true := by
  show decide (2 ≤ (neighborsOf [c3row, c3row] 0).length) = true
  rw [c3_neigh0]
  rfl

lemma c3_core1 : isCorePt [c3row, c3row] 2 1 = true := by
  show decide (2 ≤ (neighborsOf [c3row, c3row] 1).length) = true
  rw [c3_neigh1]
  rfl

lemma c3_labels : dbscan_fit_predict [c3row, c3row] 2 = [some 0, some 0] := by
  show dbscanScan [c3row, c3row] 2 [0, 1] 0 [none, none] = [some 0, some 0]
  rw [dbscanScan, if_pos ⟨rfl, c3_core0⟩]
  have hexp : expandCluster [c3row, c3row] 2 0
      (([c3row, c3row] : List (List ℚ)).length
        * ([c3row, c3row] : List (List ℚ)).length
        + ([c3row, c3row] : List (List ℚ)).length + 1)
      [none, none] [0] = [some 0, some 0] := by
    show expandCluster [c3row, c3row] 2 0 (6 + 1) [none, none] [0]
      = [some 0, some 0]
    rw [expandCluster,
      if_pos (show ([(none : Option ℕ), none].getD 0 none) = none from rfl),
      if_pos c3_core0, c3_neigh0]
    rw [show (([0, 1] : List ℕ).filter
        (fun j => (([(none : Option ℕ), none].set 0 (some 0)).getD j none) = none))
        = [1] from by simp]
    rw [List.nil_append]
    show expandCluster [c3row, c3row] 2 0 (5 + 1)
      ([(none : Option ℕ), none].set 0 (some 0)) [1] = [some 0, some 0]
    rw [expandCluster,
      if_pos (show (([(none : Option ℕ), none].set 0 (some 0)).getD 1 none)
        = none from rfl),
      if_pos c3_core1, c3_neigh1]
    rw [show (([0, 1] : List ℕ).filter
        (fun j => (((([(none : Option ℕ), none].set 0 (some 0)).set 1
          (some 0)).getD j none) = none))) = [] from by simp]
    rw [List.append_nil]
    show expandCluster [c3row, c3row] 2 0 (4 + 1)
      ((([(none : Option ℕ), none].set 0 (some 0)).set 1 (some 0))) []
      = [some 0, some 0]
    rw [expandCluster]
    rfl
  rw [hexp, dbscanScan, if_neg (by simp)]
  rfl

lemma c3_clusters : detect_clusters (extract_network_features c3data) 2
    = [(0, ["a", "b"])] := by
  rw [c3_features]
  show (groupClusters (([("a", c3row), ("b", c3row)].map Prod.fst).zip
      (dbscan_fit_predict ([("a", c3row), ("b", c3row)].map Prod.snd) 2))).filter
      (fun c => 2 ≤ c.2.length) = [(0, ["a", "b"])]
  rw [show ([("a", c3row), ("b", c3row)].map Prod.snd) = [c3row, c3row] from rfl,
    c3_labels]
  rfl

lemma c3_behavior : analyze_cluster_behavior ["a", "b"] c3data 0
    = Except.error "KeyError: value" := rfl

lemma c3_mapM : (detect_clusters (extract_network_features c3data) 2).mapM
    (fun c => analyze_cluster_behavior c.2 c3data c.1)
    = Except.error "KeyError: value" := by
  rw [c3_clusters]
  simp [List.mapM, List.mapM.loop, c3_behavior]

/-- C3 (amended).  There is no per-cluster exception boundary: the only
handler wraps the whole call, so when analyzing any cluster raises, the
entire call returns the `{'error': ...}` dict and no cluster results at
all are returned. -/
theorem cluster_fault_returns_error (network_data : List Tx)
    (min_cluster_size : ℕ) (e : String) (hne : network_data ≠ [])
    (herr : (detect_clusters (extract_network_features network_data)
        min_cluster_size).mapM
        (fun c => analyze_cluster_behavior c.2 network_data c.1)
        = Except.error e) :
    analyze_network_clusters network_data min_cluster_size = Output.error e := by
  rw [analyze_network_clusters, if_neg hne, herr]

/-- C3 witness: on `c3data` (whose one detected cluster raises `KeyError`
over the missing `value` key) the whole call returns the error dict. -/
theorem cluster_fault_returns_error_witness :
    analyze_network_clusters c3data 2 = Output.error "KeyError: value" :=
  cluster_fault_returns_error c3data 2 "KeyError: value" (by simp [c3data])
    c3_mapM

/-- C3 counterexample.  On `c3data` the fault raised while analyzing the
single detected cluster is not caught at a per-cluster boundary: the call
returns `{'error': 'KeyError: value'}` instead of an aggregate result with
a degraded cluster entry. -/
theorem whole_call_error_counterexample :
    analyze_network_clusters c3data 2 = Output.error "KeyError: value"
    ∧ analyze_cluster_behavior ["a", "b"] c3data 0
      = Except.error "KeyError: value" := by
  refine ⟨?_, c3_behavior⟩
  rw [analyze_network_clusters, if_neg (by simp [c3data]), c3_mapM]

/- ## C5: unparsable timestamps -/

/-- An edge with its timestamp key removed. -/
def eraseTs (tx : Tx) : Tx := { tx with timestamp := none }

/-- The degree and volume fields of an address's statistics — the part of
the extraction the timestamps must not influence. -/
def degVol (s : AddressStats) : ℕ × ℕ × ℚ × ℚ :=
  (s.in_degree, s.out_degree, s.in_volume, s.out_volume)

/-- Follows the spec's words: `activity_span_days` computed from the
address's parsable timestamps (unparsable ones skipped individually). -/
def specActivitySpanDays (timestamps : List String) : ℚ :=
  if (timestamps.filterMap (fun ts => fromisoformat (replaceZ ts))) = [] then 0
  else ((listMaxInt ((timestamps.filterMap
        (fun ts => fromisoformat (replaceZ ts))).map (·.secs))
      - listMinInt ((timestamps.filterMap
        (fun ts => fromisoformat (replaceZ ts))).map (·.secs))).fdiv 86400 : ℚ)

lemma mapM_loop_eq_none {α β : Type} (f : α → Option β) :
    ∀ (l : List α) (x : α), x ∈ l → f x = none →
    ∀ (acc : List β), List.mapM.loop f l acc = none := by
  intro l
  induction l with
  | nil => intro x hx; simp at hx
  | cons y ys ih =>
    intro x hx hf acc
    rcases List.mem_cons.mp hx with h | h
    · subst h
      simp [List.mapM.loop, hf]
    · cases hy : f y with
      | none => simp [List.mapM.loop, hy]
      | some b =>
        simp only [List.mapM.loop, hy, Option.bind_eq_bind, Option.some_bind]
        exact ih x h hf (b :: acc)

lemma mapM_eq_none_of_mem {α β : Type} (f : α → Option β) (l : List α)
    (x : α) (hx : x ∈ l) (hf : f x = none) : l.mapM f = none :=
  mapM_loop_eq_none f l x hx hf []

lemma mapM_loop_eq_filterMap {α β : Type} (f : α → Option β) :
    ∀ (l : List α), (∀ x ∈ l, f x ≠ none) →
    ∀ (acc : List β),
    List.mapM.loop f l acc = some (acc.reverse ++ l.filterMap f) := by
  intro l
  induction l with
  | nil =>
    intro _ acc
    simp [List.mapM.loop]
  | cons y ys ih =>
    intro hl acc
    cases hy : f y with
    | none => exact absurd hy (hl y (List.mem_cons_self y ys))
    | some b =>
      simp only [List.mapM.loop, hy, Option.bind_eq_bind, Option.some_bind]
      rw [ih (fun x hx => hl x (List.mem_cons_of_mem y hx)) (b :: acc)]
      simp [List.filterMap_cons, hy]

lemma mapM_eq_filterMap_of_all_some {α β : Type} (f : α → Option β)
    (l : List α) (hl : ∀ x ∈ l, f x ≠ none) :
    l.mapM f = some (l.filterMap f) := by
  have h := mapM_loop_eq_filterMap f l hl []
  simpa using h

lemma filterMap_filter_truthy {α β : Type} (f : α → Option β)
    (p : α → Bool) (l : List α) (hp : ∀ x, p x = false → f x = none) :
    (l.filter p).filterMap f = l.filterMap f := by
  induction l with
  | nil => simp
  | cons y ys ih =>
    cases hy : p y with
    | true => simp [List.filter_cons, hy, List.filterMap_cons, ih]
    | false =>
      simp [List.filter_cons, hy, List.filterMap_cons, ih, hp y hy]

lemma updateStats_degVol_congr (addr : String)
    (f1 f2 : AddressStats → AddressStats)
    (hf : ∀ s1 s2, degVol s1 = degVol s2 → degVol (f1 s1) = degVol (f2 s2)) :
    ∀ (m1 m2 : List (String × AddressStats)),
    m1.map (fun p => (p.1, degVol p.2)) = m2.map (fun p => (p.1, degVol p.2)) →
    (updateStats m1 addr f1).map (fun p => (p.1, degVol p.2))
      = (updateStats m2 addr f2).map (fun p => (p.1, degVol p.2)) := by
  intro m1
  induction m1 with
  | nil =>
    intro m2 hm
    cases m2 with
    | nil => simp [updateStats, hf AddressStats.init AddressStats.init rfl]
    | cons q m2' => simp at hm
  | cons p m1' ih =>
    intro m2 hm
    cases m2 with
    | nil => simp at hm
    | cons q m2' =>
      obtain ⟨a1, s1⟩ := p
      obtain ⟨a2, s2⟩ := q
      simp only [List.map_cons, List.cons.injEq, Prod.mk.injEq] at hm
      obtain ⟨⟨ha, hs⟩, htail⟩ := hm
      subst ha
      by_cases h : a1 = addr
      · simp only [updateStats, if_pos h, List.map_cons, List.cons.injEq,
          Prod.mk.injEq]
        exact ⟨⟨by simp, hf s1 s2 hs⟩, htail⟩
      · simp only [updateStats, if_neg h, List.map_cons, List.cons.injEq,
          Prod.mk.injEq]
        exact ⟨⟨by simp, hs⟩, ih m2' htail⟩

lemma recordTx_degVol_congr (tx : Tx) (m1 m2 : List (String × AddressStats))
    (hm : m1.map (fun p => (p.1, degVol p.2)) = m2.map (fun p => (p.1, degVol p.2))) :
    (recordTx m1 tx).map (fun p => (p.1, degVol p.2))
      = (recordTx m2 (eraseTs tx)).map (fun p => (p.1, degVol p.2)) := by
  rw [recordTx, recordTx]
  apply updateStats_degVol_congr
  · intro s1 s2 h12
    simp only [degVol, Prod.mk.injEq] at h12 ⊢
    obtain ⟨h1, h2, h3, h4⟩ := h12
    refine ⟨by omega, h2, ?_, h4⟩
    rw [h3]
    rfl
  · apply updateStats_degVol_congr
    · intro s1 s2 h12
      simp only [degVol, Prod.mk.injEq] at h12 ⊢
      obtain ⟨h1, h2, h3, h4⟩ := h12
      refine ⟨h1, by omega, h3, ?_⟩
      rw [h4]
      rfl
    · exact hm

lemma buildStats_degVol_erase_aux (network_data : List Tx) :
    ∀ (m1 m2 : List (String × AddressStats)),
    m1.map (fun p => (p.1, degVol p.2)) = m2.map (fun p => (p.1, degVol p.2)) →
    (network_data.foldl recordTx m1).map (fun p => (p.1, degVol p.2))
      = ((network_data.map eraseTs).foldl recordTx m2).map
        (fun p => (p.1, degVol p.2)) := by
  induction network_data with
  | nil => intro m1 m2 hm; simpa using hm
  | cons tx rest ih =>
    intro m1 m2 hm
    simp only [List.map_cons, List.foldl_cons]
    exact ih (recordTx m1 tx) (recordTx m2 (eraseTs tx))
      (recordTx_degVol_congr tx m1 m2 hm)

/-- C5 (amended).  Timestamps never affect degree or volume counts and
the extractor is total, but the temporal feature is all-or-nothing per
address: the whole parse runs inside one `try`, so one unparsable
(nonempty) timestamp zeroes `activity_span_days` even when other
timestamps parse; the span is computed only when every recorded
timestamp parses (and, all being naive, equals the spec-side span over
the parsable timestamps). -/
theorem unparsable_timestamp_semantics :
    (∀ (network_data : List Tx),
      (buildStats network_data).map (fun p => (p.1, degVol p.2))
        = (buildStats (network_data.map eraseTs)).map (fun p => (p.1, degVol p.2)))
    ∧ (∀ (tss : List String),
      (∃ ts ∈ tss, ts ≠ "" ∧ fromisoformat (replaceZ ts) = none) →
      activitySpanFeature tss = 0)
    ∧ (∀ (tss : List String),
      (∀ ts ∈ tss, ts ≠ "" → fromisoformat (replaceZ ts) ≠ none) →
      (∀ ts ∈ tss, ∀ dt, fromisoformat (replaceZ ts) = some dt →
        dt.aware = false) →
      activitySpanFeature tss = specActivitySpanDays tss) := by
  have hempty : fromisoformat (replaceZ "") = none := rfl
  have hfilterMap : ∀ tss : List String,
      ((tss.filter (· ≠ "")).filterMap (fun ts => fromisoformat (replaceZ ts)))
        = tss.filterMap (fun ts => fromisoformat (replaceZ ts)) := by
    intro tss
    apply filterMap_filter_truthy
    intro x hx
    have : x = "" := by simpa using hx
    rw [this, hempty]
  refine ⟨?_, ?_, ?_⟩
  · intro network_data
    exact buildStats_degVol_erase_aux network_data [] [] rfl
  · rintro tss ⟨ts, hmem, hne, hnone⟩
    rw [activitySpanFeature,
      if_pos (by intro h; rw [h] at hmem; simp at hmem),
      mapM_eq_none_of_mem _ _ ts (List.mem_filter.mpr
        ⟨hmem, by simpa using hne⟩) hnone]
  · intro tss hall hnaive
    by_cases htss : tss = []
    · subst htss
      rfl
    · have hmapM : (tss.filter (· ≠ "")).mapM (fun ts => fromisoformat (replaceZ ts))
          = some (tss.filterMap (fun ts => fromisoformat (replaceZ ts))) := by
        rw [mapM_eq_filterMap_of_all_some _ _ (fun x hx =>
          hall x (List.mem_filter.mp hx).1 (by
            have := (List.mem_filter.mp hx).2
            simpa using this))]
        rw [hfilterMap]
      rw [activitySpanFeature, if_pos htss, hmapM]
      dsimp only
      by_cases hdates : tss.filterMap (fun ts => fromisoformat (replaceZ ts)) = []
      · rw [specActivitySpanDays, if_pos hdates,
          if_neg (show ¬ (tss.filterMap (fun ts => fromisoformat (replaceZ ts))
            ≠ []) from fun hc => hc hdates)]
      · have hnaiveAll : (tss.filterMap
            (fun ts => fromisoformat (replaceZ ts))).all (fun d => !d.aware) = true := by
          rw [List.all_eq_true]
          intro d hd
          obtain ⟨ts, hts, hparse⟩ := List.mem_filterMap.mp hd
          simp [hnaive ts hts d hparse]
        rw [specActivitySpanDays, if_neg hdates, if_pos hdates,
          if_pos (Or.inr hnaiveAll)]

/-- C5 witness: a single parsable timestamp yields span 0 through both
the code path and the spec-side formula, and an unparsable-only list
yields 0. -/
theorem unparsable_timestamp_semantics_witness :
    activitySpanFeature ["not-a-date"] = 0
    ∧ activitySpanFeature ["2024-01-05T00:00:00"]
      = specActivitySpanDays ["2024-01-05T00:00:00"] :=
  ⟨unparsable_timestamp_semantics.2.1 ["not-a-date"]
      ⟨"not-a-date", by simp, by simp, rfl⟩,
    unparsable_timestamp_semantics.2.2 ["2024-01-05T00:00:00"]
      (by intro ts hts hne
          have : ts = "2024-01-05T00:00:00" := by simpa using hts
          rw [this]
          intro hc
          exact absurd hc (by simp [show fromisoformat
            (replaceZ "2024-01-05T00:00:00")
            = some ⟨false, 1704412800⟩ from rfl]))
      (by intro ts hts dt hdt
          have hts2 : ts = "2024-01-05T00:00:00" := by simpa using hts
          rw [hts2] at hdt
          have : dt = ⟨false, 1704412800⟩ := by
            have h2 : some dt = some (⟨false, 1704412800⟩ : PyDatetime) := by
              rw [← hdt]
              rfl
            exact (Option.some.inj h2)
          rw [this])⟩

/-- C5 counterexample timestamps: two parsable dates two days apart plus
one unparsable string. -/
def c5bad : List String :=
  ["2024-01-05T00:00:00", "2024-01-07T00:00:00", "not-a-date"]

/-- C5 counterexample edge list: three inbound transfers to `a` carrying
those timestamps. -/
def c5data : List Tx :=
  [⟨"x", "a", some 1, some "2024-01-05T00:00:00"⟩,
   ⟨"y", "a", some 1, some "2024-01-07T00:00:00"⟩,
   ⟨"z", "a", some 1, some "not-a-date"⟩]

/-- C5 counterexample.  Address `a` has two parsable timestamps spanning
2 days plus one unparsable one; the claim says the span is computed from
the parsable timestamps (2), but the code's all-or-nothing `try` yields
0 — while the edges still count toward `a`'s degrees and volumes. -/
theorem span_zeroed_counterexample :
    activitySpanFeature c5bad = 0
    ∧ specActivitySpanDays c5bad = 2
    ∧ (0 : ℚ) ≠ 2
    ∧ ("a", (⟨3, 0, 3, 0, 3, ["x", "y", "z"], c5bad⟩ : AddressStats))
      ∈ buildStats c5data := by
  refine ⟨?_, ?_, by norm_num, ?_⟩
  · rfl
  · rw [specActivitySpanDays,
      show (c5bad.filterMap (fun ts => fromisoformat (replaceZ ts)))
        = [⟨false, 1704412800⟩, ⟨false, 1704585600⟩] from rfl,
      if_neg (by simp)]
    rw [show ((([(⟨false, 1704412800⟩ : PyDatetime), ⟨false, 1704585600⟩]).map
        (·.secs)) : List ℤ) = [1704412800, 1704585600] from rfl]
    rw [show listMaxInt [(1704412800 : ℤ), 1704585600] = 1704585600 from by
        simp [listMaxInt],
      show listMinInt [(1704412800 : ℤ), 1704585600] = 1704412800 from by
        simp [listMinInt]]
    rw [show ((1704585600 : ℤ) - 1704412800).fdiv 86400 = 2 from by decide]
    norm_num
  · have hb : buildStats c5data
        = [("x", ⟨0, 1, 0, 1, 1, ["a"], ["2024-01-05T00:00:00"]⟩),
           ("a", ⟨3, 0, 3, 0, 3, ["x", "y", "z"], c5bad⟩),
           ("y", ⟨0, 1, 0, 1, 1, ["a"], ["2024-01-07T00:00:00"]⟩),
           ("z", ⟨0, 1, 0, 1, 1, ["a"], ["not-a-date"]⟩)] := by
      simp [c5data, c5bad, buildStats, recordTx, updateStats, Tx.getValue,
        Tx.truthyTimestamp, setAdd, AddressStats.init]
      norm_num
    rw [hb]
    simp

end Sentinel
